import Mathlib

/-!
# GLADOS / ddrf CUDA memory layer: transfer policies, host allocator

A shallow embedding of

* `include/ddrf/cuda/sync_policy.h` (`detail::create_3D_parms`, `sync_policy`, `async_policy`),
* `include/glados/cuda/bits/host_allocator.h` (`host_allocator<T, ml>`),
* `include/ddrf/cuda/Check.h` (`check`, `checkCufft` and their helpers),

together with the properties of the specification that concern them.

Conventions of the embedding.

* A call into the CUDA runtime is an event of a trace.  The status a native call returns is
  chosen by the environment: the `k`-th event of an execution receives `rt.status k`, so a
  statement quantified over `rt` covers every combination of native return statuses.
* A C++ function body is a computation `Native α`; it ends by returning, by throwing, by
  `std::terminate`, or by `std::exit`.
* The template parameters `D`, `S`, `P` are values of `unique_ptr`, which carries the static
  members the policies inspect.  A failing `static_assert` makes the instantiation ill-formed:
  the body is never run, and the diagnostics of all failing assertions are the result.
* `std::size_t` arithmetic is arithmetic modulo `2 ^ 64`.
-/

set_option linter.unusedVariables false

namespace ddrf
namespace cuda

/-! ## Data model -/

/-- Where a buffer lives (`ddrf/bits/memory_location.h`). -/
inductive memory_location where
  | host
  | device
  deriving DecidableEq, Repr

/-- Status code of the CUDA runtime. -/
abbrev cudaError_t := Nat

/-- Stream handle of the CUDA runtime. -/
abbrev cudaStream_t := Nat

/-- The success status of the CUDA runtime. -/
def cudaSuccess : cudaError_t := 0

/-- Direction argument of the native copy primitives. -/
inductive cudaMemcpyKind where
  | cudaMemcpyHostToHost
  | cudaMemcpyHostToDevice
  | cudaMemcpyDeviceToHost
  | cudaMemcpyDeviceToDevice
  deriving DecidableEq, Repr

/-- Result of `make_cudaExtent(w, h, d)`: width in bytes, height in rows, depth in slices. -/
structure cudaExtent where
  width : Nat
  height : Nat
  depth : Nat
  deriving DecidableEq, Repr

/-- Result of `make_cudaPos(x, y, z)`: x in bytes, y in rows, z in slices. -/
structure cudaPos where
  x : Nat
  y : Nat
  z : Nat
  deriving DecidableEq, Repr

/-- Result of `make_cudaPitchedPtr(d, p, xsz, ysz)`. -/
structure cudaPitchedPtr where
  ptr : Nat
  pitch : Nat
  xsize : Nat
  ysize : Nat
  deriving DecidableEq, Repr

/-- The fields of `cudaMemcpy3DParms` that `create_3D_parms` sets (the others stay zero). -/
structure cudaMemcpy3DParms where
  srcPos : cudaPos
  srcPtr : cudaPitchedPtr
  dstPos : cudaPos
  dstPtr : cudaPitchedPtr
  extent : cudaExtent
  kind : cudaMemcpyKind
  deriving DecidableEq, Repr

/-- The smart pointer types the policies are instantiated with (`D`, `S`, `P`): the static
members `element_type` (through its size), `mem_location`, `pitched_memory`, `pinned_memory`,
the accessors `get()` and `pitch()`, and the elements `get()` points to (for host memory), each
element given by its object representation, a number below `256 ^ sizeof_element_type`. -/
structure unique_ptr where
  sizeof_element_type : Nat
  mem_location : memory_location
  pitched_memory : Bool
  pinned_memory : Bool
  get : Nat
  pitch : Nat
  pointee : List Nat
  deriving DecidableEq, Repr

/-- Product of two `std::size_t` values. -/
def size_t_mul (a b : Nat) : Nat := (a * b) % 2 ^ 64

/-- Modelled from the spec: `detail::memcpy_direction<D::mem_location, S::mem_location>::value`
(`ddrf/cuda/bits/memcpy_direction.h`), the fixed lookup from the (destination location, source
location) pair to one of the four directions. -/
def memcpy_direction : memory_location → memory_location → cudaMemcpyKind
  | .host, .host => .cudaMemcpyHostToHost
  | .device, .host => .cudaMemcpyHostToDevice
  | .host, .device => .cudaMemcpyDeviceToHost
  | .device, .device => .cudaMemcpyDeviceToDevice

/-! ## Native calls, traces and computations -/

/-- The calls into the CUDA runtime, with their arguments. -/
inductive NativeCall where
  | cudaMemcpy (dst src count : Nat) (kind : cudaMemcpyKind)
  | cudaMemcpy2D (dst dpitch src spitch width height : Nat) (kind : cudaMemcpyKind)
  | cudaMemcpy3D (p : cudaMemcpy3DParms)
  | cudaMemset (devPtr : Nat) (value : Int) (count : Nat)
  | cudaMemset2D (devPtr pitch : Nat) (value : Int) (width height : Nat)
  | cudaMemset3D (pitchedDevPtr : cudaPitchedPtr) (value : Int) (extent : cudaExtent)
  | cudaStreamCreate
  | cudaStreamSynchronize (stream : cudaStream_t)
  | cudaStreamDestroy (stream : cudaStream_t)
  | cudaMemcpyAsync (dst src count : Nat) (kind : cudaMemcpyKind) (stream : cudaStream_t)
  | cudaMemcpy2DAsync (dst dpitch src spitch width height : Nat) (kind : cudaMemcpyKind)
      (stream : cudaStream_t)
  | cudaMemcpy3DAsync (p : cudaMemcpy3DParms) (stream : cudaStream_t)
  | cudaMemsetAsync (devPtr : Nat) (value : Int) (count : Nat) (stream : cudaStream_t)
  | cudaMemset2DAsync (devPtr pitch : Nat) (value : Int) (width height : Nat)
      (stream : cudaStream_t)
  | cudaMemset3DAsync (pitchedDevPtr : cudaPitchedPtr) (value : Int) (extent : cudaExtent)
      (stream : cudaStream_t)
  | cudaMallocHost (size : Nat)
  | cudaFreeHost (ptr : Nat)
  deriving DecidableEq, Repr

/-- The closures that `async_policy::fill` hands to a detached `std::thread`, each named by its
body: `std::fill_n(p.get(), x, value)`, `std::fill_n(p.get(), x * y, value)` and
`std::fill_n(p.get(), x * y * z, value)`. Each is written with `[&]`: it captures `p`, the
extents and `value` by reference, and the thread reads them when it runs, which may be after
`fill` has returned and its parameters are gone. A closure therefore carries no count and no
value: what the thread writes is not determined by the arguments of the call. -/
inductive fill_closure where
  | fill_n_x
  | fill_n_x_y
  | fill_n_x_y_z
  deriving DecidableEq, Repr

/-- What an execution does that is visible outside the function: a native call, or the start of
a detached `std::thread` that runs the closure `f`. -/
inductive Event where
  | native (c : NativeCall)
  | detached_thread (f : fill_closure)
  deriving DecidableEq, Repr

/-- The exceptions thrown (`ddrf/cuda/exception.h`, `glados/cuda/exception.h`). -/
inductive exception where
  | invalid_argument (what : String)
  | bad_alloc
  | runtime_error (what : String)
  deriving DecidableEq, Repr

/-- The environment of one execution: the status of the `k`-th event, the handle that
`cudaStreamCreate` writes, the pointer that `cudaMallocHost` writes, the runtime's
`cudaGetErrorString`, and the enumerators `cudaErrorInvalidValue` and
`cudaErrorMemoryAllocation` of the CUDA headers. -/
structure Runtime where
  status : Nat → cudaError_t
  stream : cudaStream_t
  hostPtr : Nat
  cudaGetErrorString : cudaError_t → String
  cudaErrorInvalidValue : cudaError_t
  cudaErrorMemoryAllocation : cudaError_t

/-- How a call ends. -/
inductive Completion (α : Type) where
  | returned (value : α)
  | thrown (e : exception)
  | terminated
  | exited (code : Nat)
  | ill_formed (diagnostics : List String)
  deriving DecidableEq, Repr

/-- A function body: from the environment and the trace so far to a completion and the trace
extended by the events the body issued. -/
def Native (α : Type) : Type := Runtime → List Event → Completion α × List Event

/-- Sequencing: the continuation runs only after a normal return. -/
def Native.bind {α β : Type} (m : Native α) (f : α → Native β) : Native β :=
  fun rt tr =>
    match m rt tr with
    | (.returned a, tr1) => f a rt tr1
    | (.thrown e, tr1) => (.thrown e, tr1)
    | (.terminated, tr1) => (.terminated, tr1)
    | (.exited c, tr1) => (.exited c, tr1)
    | (.ill_formed ds, tr1) => (.ill_formed ds, tr1)

instance : Monad Native where
  pure a := fun _ tr => (.returned a, tr)
  bind := Native.bind

/-- Issue a native call: it is appended to the trace and returns the status the environment
gives to this event. -/
def native (c : NativeCall) : Native cudaError_t :=
  fun rt tr => (.returned (rt.status tr.length), tr ++ [.native c])

/-- The statements `auto&& t = std::thread{f}; t.detach();`: a thread running the closure `f`
is started and detached; the caller does not wait for it. -/
def detach_thread (f : fill_closure) : Native Unit :=
  fun _ tr => (.returned (), tr ++ [.detached_thread f])

/-- The C++ `throw`. -/
def raise {α : Type} (e : exception) : Native α := fun _ tr => (.thrown e, tr)

/-- The C++ `std::terminate()`. -/
def terminate {α : Type} : Native α := fun _ tr => (.terminated, tr)

/-- The C++ `std::exit(code)`. -/
def exit {α : Type} (code : Nat) : Native α := fun _ tr => (.exited code, tr)

/-- The environment, read inside a body. -/
def runtime : Native Runtime := fun rt tr => (.returned rt, tr)

/-- One `static_assert(cond, message)`. -/
structure StaticAssert where
  cond : Bool
  message : String
  deriving DecidableEq, Repr

/-- The diagnostics of the assertions that fail. -/
def diagnostics (asserts : List StaticAssert) : List String :=
  (asserts.filter (fun a => !a.cond)).map (fun a => a.message)

/-- Instantiating a template whose static assertions are `asserts`: if one fails the call is
ill-formed and the body does not run. -/
def instantiate {α : Type} (asserts : List StaticAssert) (body : Native α) : Native α :=
  if diagnostics asserts = [] then body
  else fun _ tr => (.ill_formed (diagnostics asserts), tr)

/-- Run a call from the empty trace. -/
def run {α : Type} (m : Native α) (rt : Runtime) : Completion α × List Event := m rt []

/-- The native calls of a trace, in order. -/
def native_calls : List Event → List NativeCall
  | [] => []
  | .native c :: es => c :: native_calls es
  | .detached_thread _ :: es => native_calls es

/-- The expression `invalid_argument{cudaGetErrorString(err)}` thrown by the policies. -/
def throw_invalid_argument {α : Type} (err : cudaError_t) : Native α :=
  fun rt tr => (.thrown (.invalid_argument (rt.cudaGetErrorString err)), tr)

/-! ## `detail::create_3D_parms` -/

/-- The source function `detail::create_3D_parms(d, s, x, y, z, d_off_x, ..., s_off_z)`. -/
def detail.create_3D_parms (d s : unique_ptr) (x y z : Nat)
    (d_off_x d_off_y d_off_z s_off_x s_off_y s_off_z : Nat) : cudaMemcpy3DParms :=
  let uchar_size := 1
  let d_elem_size := d.sizeof_element_type / uchar_size
  let s_elem_size := s.sizeof_element_type / uchar_size
  let to_uchar_pos := fun (v size : Nat) => size_t_mul v size
  let x_ext := to_uchar_pos x d_elem_size
  let extent : cudaExtent := { width := x_ext, height := y, depth := z }
  let d_size := d.sizeof_element_type
  let s_size := s.sizeof_element_type
  let d_pitch := if d.mem_location = memory_location.host then size_t_mul x d_size else d.pitch
  let s_pitch := if s.mem_location = memory_location.host then size_t_mul x s_size else s.pitch
  let d_pitched : cudaPitchedPtr := { ptr := d.get, pitch := d_pitch, xsize := x, ysize := y }
  let s_pitched : cudaPitchedPtr := { ptr := s.get, pitch := s_pitch, xsize := x, ysize := y }
  let d_pos_x := to_uchar_pos d_off_x d_elem_size
  let d_pos_y := to_uchar_pos d_off_y d_elem_size
  let d_pos_z := to_uchar_pos d_off_z d_elem_size
  let s_pos_x := to_uchar_pos s_off_x s_elem_size
  let s_pos_y := to_uchar_pos s_off_y s_elem_size
  let s_pos_z := to_uchar_pos s_off_z s_elem_size
  let d_pos : cudaPos := { x := d_pos_x, y := d_pos_y, z := d_pos_z }
  let s_pos : cudaPos := { x := s_pos_x, y := s_pos_y, z := s_pos_z }
  { srcPos := s_pos
    srcPtr := s_pitched
    dstPos := d_pos
    dstPtr := d_pitched
    extent := extent
    kind := memcpy_direction d.mem_location s.mem_location }

/-! ## Host side of `fill` -/

/-- The conversion of the `int` argument of `fill` to an element of `size` bytes of integral
type, as its object representation. -/
def to_element (size : Nat) (value : Int) : Nat := (value % (256 : Int) ^ size).toNat

/-- The algorithm `std::fill_n(first, count, value)` on the elements `first` points to: assigns
`value` to each of the first `count` elements. -/
def fill_n : List Nat → Nat → Nat → List Nat
  | _ :: rest, count + 1, value => value :: fill_n rest count value
  | first, _, _ => first

/-- Byte `k` of an element, from its object representation (least significant byte first). -/
def byte_of (element k : Nat) : Nat := (element / 256 ^ k) % 256

/-! ## Static assertions of the copy overloads -/

/-- The two layout assertions of `sync_policy::copy` (1D). -/
def sync_policy.copy_1D_layout (d s : unique_ptr) : List StaticAssert :=
  [ ⟨!d.pitched_memory, "Destination memory must not be pitched for a 1D copy."⟩,
    ⟨!s.pitched_memory, "Source memory must not be pitched for a 1D copy."⟩ ]

/-- The two layout assertions of `sync_policy::copy` (2D). -/
def sync_policy.copy_2D_layout (d s : unique_ptr) : List StaticAssert :=
  [ ⟨decide (d.mem_location = memory_location.host) || d.pitched_memory,
      "Destination memory on the device must be pitched for a 2D copy."⟩,
    ⟨decide (s.mem_location = memory_location.host) || s.pitched_memory,
      "Source memory on the device must be pitched for a 2D copy."⟩ ]

/-- The two layout assertions of `sync_policy::copy` (3D). -/
def sync_policy.copy_3D_layout (d s : unique_ptr) : List StaticAssert :=
  [ ⟨decide (d.mem_location = memory_location.host) || d.pitched_memory,
      "Destination memory on the device must be pitched for a 3D copy."⟩,
    ⟨decide (s.mem_location = memory_location.host) || s.pitched_memory,
      "Source memory on the device must be pitched for a 3D copy."⟩ ]

/-- The two layout assertions of `async_policy::copy` (1D). -/
def async_policy.copy_1D_layout (d s : unique_ptr) : List StaticAssert :=
  [ ⟨!d.pitched_memory, "Destination memory must not be pitched for a 1D copy"⟩,
    ⟨!s.pitched_memory, "Source memory must not be pitched for a 1D copy"⟩ ]

/-- The two pinned-memory assertions of `async_policy::copy` (1D). -/
def async_policy.copy_1D_pinned (d s : unique_ptr) : List StaticAssert :=
  [ ⟨decide (d.mem_location = memory_location.device) || d.pinned_memory,
      "Destination on host memory must be pinned for asynchronous copies."⟩,
    ⟨decide (s.mem_location = memory_location.device) || s.pinned_memory,
      "Source on host memory must be pinned for asynchronous copies."⟩ ]

/-- The two layout assertions of `async_policy::copy` (2D). -/
def async_policy.copy_2D_layout (d s : unique_ptr) : List StaticAssert :=
  [ ⟨decide (d.mem_location = memory_location.host) || d.pitched_memory,
      "Destination memory on the device must be pitched for a 2D copy."⟩,
    ⟨decide (s.mem_location = memory_location.host) || s.pitched_memory,
      "Source memory on the device must be pitched for a 2D copy."⟩ ]

/-- The two pinned-memory assertions of `async_policy::copy` (2D). -/
def async_policy.copy_2D_pinned (d s : unique_ptr) : List StaticAssert :=
  [ ⟨decide (d.mem_location = memory_location.device) || d.pinned_memory,
      "Destination memory on the host must be pinned for asynchronous copies."⟩,
    ⟨decide (s.mem_location = memory_location.device) || s.pinned_memory,
      "Source memory on the host must be pinned for asynchronous copies."⟩ ]

/-- The two layout assertions of `async_policy::copy` (3D). -/
def async_policy.copy_3D_layout (d s : unique_ptr) : List StaticAssert :=
  [ ⟨decide (d.mem_location = memory_location.host) || d.pitched_memory,
      "Destination memory on the device must be pitched for a 3D copy."⟩,
    ⟨decide (s.mem_location = memory_location.host) || s.pitched_memory,
      "Source memory on the host must be pitched for a 3D copy."⟩ ]

/-- The two pinned-memory assertions of `async_policy::copy` (3D). -/
def async_policy.copy_3D_pinned (d s : unique_ptr) : List StaticAssert :=
  [ ⟨decide (d.mem_location = memory_location.device) || d.pinned_memory,
      "Destination memory on the host must be pinned for asynchronous copies."⟩,
    ⟨decide (s.mem_location = memory_location.device) || s.pinned_memory,
      "Source memory on the host must be pinned for asynchronous copies."⟩ ]

/-! ## `sync_policy` -/

/-- The source function `sync_policy::copy(d, s, x)`. -/
def sync_policy.copy_1D (d s : unique_ptr) (x : Nat) : Native Unit :=
  instantiate (sync_policy.copy_1D_layout d s) do
    let rt ← runtime
    let size := d.sizeof_element_type
    let err := rt.cudaErrorInvalidValue
    let err ← native (.cudaMemcpy d.get s.get (size_t_mul x size)
      (memcpy_direction d.mem_location s.mem_location))
    if err ≠ cudaSuccess then
      throw_invalid_argument err

/-- The source function `sync_policy::copy(d, s, x, y)`. -/
def sync_policy.copy_2D (d s : unique_ptr) (x y : Nat) : Native Unit :=
  instantiate (sync_policy.copy_2D_layout d s) do
    let rt ← runtime
    let size := d.sizeof_element_type
    let d_pitch := if d.mem_location = memory_location.host then size_t_mul x size else d.pitch
    let s_pitch := if s.mem_location = memory_location.host then size_t_mul x size else s.pitch
    let err := rt.cudaErrorInvalidValue
    let err ← native (.cudaMemcpy2D d.get d_pitch s.get s_pitch (size_t_mul x size) y
      (memcpy_direction d.mem_location s.mem_location))
    if err ≠ cudaSuccess then
      throw_invalid_argument err

/-- The source function `sync_policy::copy(d, s, x, y, z, d_off_x, ..., s_off_z)`; the offsets
default to zero. -/
def sync_policy.copy_3D (d s : unique_ptr) (x y z : Nat)
    (d_off_x d_off_y d_off_z s_off_x s_off_y s_off_z : Nat) : Native Unit :=
  instantiate (sync_policy.copy_3D_layout d s) do
    let rt ← runtime
    let parms := detail.create_3D_parms d s x y z d_off_x d_off_y d_off_z s_off_x s_off_y s_off_z
    let err := rt.cudaErrorInvalidValue
    let err ← native (.cudaMemcpy3D parms)
    if err ≠ cudaSuccess then
      throw_invalid_argument err

/-- The source functions `sync_policy::fill(p, value, x)`: the overload for device memory and the
overload for host memory. The result is `p` with the elements it points to after the call. -/
def sync_policy.fill_1D (p : unique_ptr) (value : Int) (x : Nat) : Native unique_ptr :=
  match p.mem_location with
  | .device =>
    instantiate [⟨!p.pitched_memory,
        "The memory on the device must not be pitched for a 1D fill operation."⟩] do
      let rt ← runtime
      let size := p.sizeof_element_type
      let err := rt.cudaErrorInvalidValue
      let err ← native (.cudaMemset p.get value (size_t_mul x size))
      if err ≠ cudaSuccess then
        throw_invalid_argument err
      pure p
  | .host =>
    pure { p with pointee := fill_n p.pointee x (to_element p.sizeof_element_type value) }

/-- The source functions `sync_policy::fill(p, value, x, y)`, device and host overloads. -/
def sync_policy.fill_2D (p : unique_ptr) (value : Int) (x y : Nat) : Native unique_ptr :=
  match p.mem_location with
  | .device =>
    instantiate [⟨p.pitched_memory,
        "The memory on the device must be pitched for a 2D fill operation."⟩] do
      let rt ← runtime
      let size := p.sizeof_element_type
      let err := rt.cudaErrorInvalidValue
      let err ← native (.cudaMemset2D p.get p.pitch value (size_t_mul x size) y)
      if err ≠ cudaSuccess then
        throw_invalid_argument err
      pure p
  | .host =>
    pure { p with
      pointee := fill_n p.pointee (size_t_mul x y) (to_element p.sizeof_element_type value) }

/-- The source functions `sync_policy::fill(p, value, x, y, z)`, device and host overloads. -/
def sync_policy.fill_3D (p : unique_ptr) (value : Int) (x y z : Nat) : Native unique_ptr :=
  match p.mem_location with
  | .device =>
    instantiate [⟨p.pitched_memory,
        "The memory on the device must be pitched for a 3D fill operation."⟩] do
      let rt ← runtime
      let size := p.sizeof_element_type
      let extent : cudaExtent := { width := size_t_mul x size, height := y, depth := z }
      let pitched_ptr : cudaPitchedPtr :=
        { ptr := p.get, pitch := p.pitch, xsize := size_t_mul x size, ysize := y }
      let err := rt.cudaErrorInvalidValue
      let err ← native (.cudaMemset3D pitched_ptr value extent)
      if err ≠ cudaSuccess then
        throw_invalid_argument err
      pure p
  | .host =>
    pure { p with
      pointee := fill_n p.pointee (size_t_mul (size_t_mul x y) z)
        (to_element p.sizeof_element_type value) }

/-! ## `async_policy` -/

/-- The source function `async_policy::copy(d, s, x)`. -/
def async_policy.copy_1D (d s : unique_ptr) (x : Nat) : Native Unit :=
  instantiate (async_policy.copy_1D_layout d s ++ async_policy.copy_1D_pinned d s) do
    let rt ← runtime
    let size := d.sizeof_element_type
    let stream : cudaStream_t := 0
    let err ← native .cudaStreamCreate
    let stream := rt.stream
    if err ≠ cudaSuccess then
      throw_invalid_argument err
    let err ← native (.cudaMemcpyAsync d.get s.get (size_t_mul x size)
      (memcpy_direction d.mem_location s.mem_location) stream)
    if err ≠ cudaSuccess then
      let err2 ← native (.cudaStreamDestroy stream)
      if err2 ≠ cudaSuccess then
        terminate
      throw_invalid_argument err
    let err ← native (.cudaStreamDestroy stream)
    if err ≠ cudaSuccess then
      throw_invalid_argument err

/-- The source function `async_policy::copy(d, s, x, y)`. -/
def async_policy.copy_2D (d s : unique_ptr) (x y : Nat) : Native Unit :=
  instantiate (async_policy.copy_2D_layout d s ++ async_policy.copy_2D_pinned d s) do
    let rt ← runtime
    let size := d.sizeof_element_type
    let stream : cudaStream_t := 0
    let err ← native .cudaStreamCreate
    let stream := rt.stream
    if err ≠ cudaSuccess then
      throw_invalid_argument err
    let d_pitch := if d.mem_location = memory_location.host then size_t_mul x size else d.pitch
    let s_pitch := if s.mem_location = memory_location.host then size_t_mul x size else s.pitch
    let err ← native (.cudaMemcpy2DAsync d.get d_pitch s.get s_pitch (size_t_mul x size) y
      (memcpy_direction d.mem_location s.mem_location) stream)
    if err ≠ cudaSuccess then
      let err2 ← native (.cudaStreamDestroy stream)
      if err2 ≠ cudaSuccess then
        terminate
      throw_invalid_argument err
    let err ← native (.cudaStreamDestroy stream)
    if err ≠ cudaSuccess then
      throw_invalid_argument err

/-- The source function `async_policy::copy(d, s, x, y, z, d_off_x, ..., s_off_z)`; the offsets
default to zero. -/
def async_policy.copy_3D (d s : unique_ptr) (x y z : Nat)
    (d_off_x d_off_y d_off_z s_off_x s_off_y s_off_z : Nat) : Native Unit :=
  instantiate (async_policy.copy_3D_layout d s ++ async_policy.copy_3D_pinned d s) do
    let rt ← runtime
    let parms := detail.create_3D_parms d s x y z d_off_x d_off_y d_off_z s_off_x s_off_y s_off_z
    let stream : cudaStream_t := 0
    let err ← native .cudaStreamCreate
    let stream := rt.stream
    if err ≠ cudaSuccess then
      throw_invalid_argument err
    let err ← native (.cudaMemcpy3DAsync parms stream)
    if err ≠ cudaSuccess then
      let err2 ← native (.cudaStreamDestroy stream)
      if err2 ≠ cudaSuccess then
        terminate
      throw_invalid_argument err
    let err ← native (.cudaStreamDestroy stream)
    if err ≠ cudaSuccess then
      throw_invalid_argument err

/-- The source functions `async_policy::fill(p, value, x)`: the overload for device memory and
the overload for host memory, which hands its closure to a detached thread and returns. -/
def async_policy.fill_1D (p : unique_ptr) (value : Int) (x : Nat) : Native Unit :=
  match p.mem_location with
  | .device =>
    instantiate [⟨!p.pitched_memory,
        "The memory on the device must not be pitched for a 1D fill operation."⟩] do
      let rt ← runtime
      let size := p.sizeof_element_type
      let stream : cudaStream_t := 0
      let err ← native .cudaStreamCreate
      let stream := rt.stream
      if err ≠ cudaSuccess then
        throw_invalid_argument err
      let err ← native (.cudaMemsetAsync p.get value (size_t_mul x size) stream)
      if err ≠ cudaSuccess then
        let err2 ← native (.cudaStreamDestroy stream)
        if err2 ≠ cudaSuccess then
          terminate
        throw_invalid_argument err
      let err ← native (.cudaStreamDestroy stream)
      if err ≠ cudaSuccess then
        throw_invalid_argument err
  | .host => do
    detach_thread .fill_n_x

/-- The source functions `async_policy::fill(p, value, x, y)`, device and host overloads. -/
def async_policy.fill_2D (p : unique_ptr) (value : Int) (x y : Nat) : Native Unit :=
  match p.mem_location with
  | .device =>
    instantiate [⟨p.pitched_memory,
        "The memory on the device must be pitched for a 2D fill operation."⟩] do
      let rt ← runtime
      let size := p.sizeof_element_type
      let stream : cudaStream_t := 0
      let err ← native .cudaStreamCreate
      let stream := rt.stream
      if err ≠ cudaSuccess then
        throw_invalid_argument err
      let err ← native (.cudaMemset2DAsync p.get p.pitch value (size_t_mul x size) y stream)
      if err ≠ cudaSuccess then
        let err2 ← native (.cudaStreamDestroy stream)
        if err2 ≠ cudaSuccess then
          terminate
        throw_invalid_argument err
      let err ← native (.cudaStreamDestroy stream)
      if err ≠ cudaSuccess then
        throw_invalid_argument err
  | .host => do
    detach_thread .fill_n_x_y

/-- The source functions `async_policy::fill(p, value, x, y, z)`, device and host overloads. -/
def async_policy.fill_3D (p : unique_ptr) (value : Int) (x y z : Nat) : Native Unit :=
  match p.mem_location with
  | .device =>
    instantiate [⟨p.pitched_memory,
        "The memory on the device must be pitched for a 3D fill operation."⟩] do
      let rt ← runtime
      let size := p.sizeof_element_type
      let extent : cudaExtent := { width := size_t_mul x size, height := y, depth := z }
      let pitched_ptr : cudaPitchedPtr :=
        { ptr := p.get, pitch := p.pitch, xsize := size_t_mul x size, ysize := y }
      let stream : cudaStream_t := 0
      let err ← native .cudaStreamCreate
      let stream := rt.stream
      if err ≠ cudaSuccess then
        throw_invalid_argument err
      let err ← native (.cudaMemset3DAsync pitched_ptr value extent stream)
      if err ≠ cudaSuccess then
        let err2 ← native (.cudaStreamDestroy stream)
        if err2 ≠ cudaSuccess then
          terminate
        throw_invalid_argument err
      let err ← native (.cudaStreamDestroy stream)
      if err ≠ cudaSuccess then
        throw_invalid_argument err
  | .host => do
    detach_thread .fill_n_x_y_z

end cuda
end ddrf

namespace glados
namespace cuda

open ddrf.cuda

/-! ## `host_allocator` -/

/-- Modelled from the spec: `detail::throw_error(err)` (`glados/cuda/bits/throw_error.h`), which
is not among the sources. It reports the failure status as an error and never returns: an
out-of-memory status as an allocation failure, a bad-parameter status as an invalid argument,
any other status as a runtime error carrying the status description. -/
def detail.throw_error {α : Type} (err : cudaError_t) : Native α :=
  fun rt tr =>
    if err = rt.cudaErrorMemoryAllocation then (.thrown .bad_alloc, tr)
    else if err = rt.cudaErrorInvalidValue then
      (.thrown (.invalid_argument (rt.cudaGetErrorString err)), tr)
    else (.thrown (.runtime_error (rt.cudaGetErrorString err)), tr)

/-- The source function `host_allocator<T, pointer_1D>::allocate(n)`; the null pointer is 0. -/
def host_allocator.allocate_1D (sizeof_value_type n : Nat) : Native Nat := do
  let rt ← runtime
  let p := 0
  let err ← native (.cudaMallocHost (size_t_mul n sizeof_value_type))
  let p := if err = cudaSuccess then rt.hostPtr else p
  if err ≠ cudaSuccess then
    detail.throw_error err
  pure p

/-- The source function `host_allocator<T, pointer_2D>::allocate(x, y)`. -/
def host_allocator.allocate_2D (sizeof_value_type x y : Nat) : Native Nat := do
  let rt ← runtime
  let p := 0
  let err ← native (.cudaMallocHost (size_t_mul (size_t_mul x y) sizeof_value_type))
  let p := if err = cudaSuccess then rt.hostPtr else p
  if err ≠ cudaSuccess then
    detail.throw_error err
  pure p

/-- The source function `host_allocator<T, pointer_3D>::allocate(x, y, z)`. -/
def host_allocator.allocate_3D (sizeof_value_type x y z : Nat) : Native Nat := do
  let rt ← runtime
  let p := 0
  let err ← native
    (.cudaMallocHost (size_t_mul (size_t_mul (size_t_mul x y) z) sizeof_value_type))
  let p := if err = cudaSuccess then rt.hostPtr else p
  if err ≠ cudaSuccess then
    detail.throw_error err
  pure p

/-- The source function `host_allocator<T, ml>::deallocate(p, ...)`, the same body in the three
layouts; the extent arguments are unnamed and unused. -/
def host_allocator.deallocate (p : Nat) (extents : List Nat) : Native Unit := do
  let err ← native (.cudaFreeHost p)
  if err ≠ cudaSuccess then
    ddrf.cuda.exit err

end cuda
end glados

namespace ddrf
namespace cuda

/-! ## `Check.h` -/

/-- Status code of the cuFFT library. -/
abbrev cufftResult := Nat

/-- The enumerator `CUFFT_SUCCESS` of `cufft.h`. -/
def CUFFT_SUCCESS : cufftResult := 0

/-- The enumerator `CUFFT_INVALID_PLAN` of `cufft.h`. -/
def CUFFT_INVALID_PLAN : cufftResult := 1

/-- The enumerator `CUFFT_ALLOC_FAILED` of `cufft.h`. -/
def CUFFT_ALLOC_FAILED : cufftResult := 2

/-- The enumerator `CUFFT_INVALID_TYPE` of `cufft.h`. -/
def CUFFT_INVALID_TYPE : cufftResult := 3

/-- The enumerator `CUFFT_INVALID_VALUE` of `cufft.h`. -/
def CUFFT_INVALID_VALUE : cufftResult := 4

/-- The enumerator `CUFFT_INTERNAL_ERROR` of `cufft.h`. -/
def CUFFT_INTERNAL_ERROR : cufftResult := 5

/-- The enumerator `CUFFT_EXEC_FAILED` of `cufft.h`. -/
def CUFFT_EXEC_FAILED : cufftResult := 6

/-- The enumerator `CUFFT_SETUP_FAILED` of `cufft.h`. -/
def CUFFT_SETUP_FAILED : cufftResult := 7

/-- The enumerator `CUFFT_INVALID_SIZE` of `cufft.h`. -/
def CUFFT_INVALID_SIZE : cufftResult := 8

/-- The enumerator `CUFFT_UNALIGNED_DATA` of `cufft.h`. -/
def CUFFT_UNALIGNED_DATA : cufftResult := 9

/-- The enumerator `CUFFT_INCOMPLETE_PARAMETER_LIST` of `cufft.h`. -/
def CUFFT_INCOMPLETE_PARAMETER_LIST : cufftResult := 10

/-- The enumerator `CUFFT_INVALID_DEVICE` of `cufft.h`. -/
def CUFFT_INVALID_DEVICE : cufftResult := 11

/-- The enumerator `CUFFT_PARSE_ERROR` of `cufft.h`. -/
def CUFFT_PARSE_ERROR : cufftResult := 12

/-- The enumerator `CUFFT_NO_WORKSPACE` of `cufft.h`. -/
def CUFFT_NO_WORKSPACE : cufftResult := 13

/-- The enumerator `CUFFT_NOT_IMPLEMENTED` of `cufft.h`. -/
def CUFFT_NOT_IMPLEMENTED : cufftResult := 14

/-- The enumerator `CUFFT_LICENSE_ERROR` of `cufft.h`. -/
def CUFFT_LICENSE_ERROR : cufftResult := 15

/-- The function `std::to_string(int)`: the decimal representation of `line`. -/
def to_string (line : Int) : String := toString line

/-- The source function `detail::checkCudaError(err, file, line)`. -/
def detail.checkCudaError (err : cudaError_t) (file : String) (line : Int) : Native Unit := do
  let rt ← runtime
  if err ≠ cudaSuccess then
    raise (.runtime_error ("CUDA assertion failed at " ++ file ++ ":" ++ to_string line ++
      ": " ++ rt.cudaGetErrorString err))

/-- The source function `detail::getCufftErrorString(result)`: the `switch` over the
enumerators, with its `default` label. -/
def detail.getCufftErrorString (result : cufftResult) : String :=
  if result = CUFFT_SUCCESS then "The cuFFT operation was successful"
  else if result = CUFFT_INVALID_PLAN then "cuFFT was passed an invalid plan handle"
  else if result = CUFFT_ALLOC_FAILED then "cuFFT failed to allocate GPU or CPU memory"
  else if result = CUFFT_INVALID_TYPE then "Invalid type"
  else if result = CUFFT_INVALID_VALUE then "Invalid pointer or parameter"
  else if result = CUFFT_INTERNAL_ERROR then "Driver or internal cuFFT library error"
  else if result = CUFFT_EXEC_FAILED then "Failed to execute an FFT on the GPU"
  else if result = CUFFT_SETUP_FAILED then "The cuFFT library failed to initialize"
  else if result = CUFFT_INVALID_SIZE then "User specified an invalid transform size"
  else if result = CUFFT_UNALIGNED_DATA then "Unaligned data"
  else if result = CUFFT_INCOMPLETE_PARAMETER_LIST then "Missing parameters in call"
  else if result = CUFFT_INVALID_DEVICE then "Execution of plan was on different GPU than plan creation"
  else if result = CUFFT_PARSE_ERROR then "Internal plan database error"
  else if result = CUFFT_NO_WORKSPACE then "No workspace has been provided prior to plan execution"
  else if result = CUFFT_NOT_IMPLEMENTED then "This feature was not implemented for your cuFFT version"
  else if result = CUFFT_LICENSE_ERROR then "NVIDIA license required. The file was either not found, is out of data, or otherwise invalid"
  else "Unknown error"

/-- The source function `detail::checkCufftError(result, file, line)`. -/
def detail.checkCufftError (result : cufftResult) (file : String) (line : Int) :
    Native Unit := do
  if result ≠ CUFFT_SUCCESS then
    raise (.runtime_error ("cuFFT assertion failed at " ++ file ++ ":" ++ to_string line ++
      ": " ++ detail.getCufftErrorString result))

/-- The source function `check(err, file, line)`. -/
def check (err : cudaError_t) (file : String) (line : Int) : Native Unit :=
  detail.checkCudaError err file line

/-- The source function `checkCufft(res, file, line)`. -/
def checkCufft (res : cufftResult) (file : String) (line : Int) : Native Unit :=
  detail.checkCufftError res file line

end cuda
end ddrf

namespace glados
namespace cuda

open ddrf.cuda

/-! ## Comparison and conversion of host allocators -/

/-- The layout of an allocation (`glados/bits/memory_layout.h`). -/
inductive memory_layout where
  | pointer_1D
  | pointer_2D
  | pointer_3D
  deriving DecidableEq, Repr

/-- An object of the class `host_allocator<T, ml>`: the class has no data members, so an object
is its specialization, the element type `T` (by its name) and the layout `ml`. -/
structure host_allocator where
  value_type : String
  mem_layout : memory_layout
  deriving DecidableEq, Repr

/-- The source function `operator==(const host_allocator<T1, ml1>&, const host_allocator<T2,
ml2>&)`. -/
def host_allocator.operator_eq (a b : host_allocator) : Bool := true

/-- The source function `operator!=(const host_allocator<T1, ml1>&, const host_allocator<T2,
ml2>&)`. -/
def host_allocator.operator_ne (a b : host_allocator) : Bool := false

/-- The static assertion of the converting constructor
`host_allocator<T, ml>::host_allocator(const host_allocator<U, uml>&)` of `self` applied to
`other`; the body of the constructor is empty. -/
def host_allocator.converting_constructor (self other : host_allocator) : List StaticAssert :=
  [ ⟨decide (self.value_type = other.value_type) && decide (self.mem_layout = other.mem_layout),
      match self.mem_layout with
      | .pointer_1D => "Attempting to copy incompatible host allocator"
      | .pointer_2D => "Attempting to copy incompatible host allocator"
      | .pointer_3D => "Attempting to copy incompatible device allocator"⟩ ]

end cuda
end glados

namespace GLADOS

open ddrf.cuda glados.cuda

/-! ## Notions used to state the properties -/

/-- The runs of an asynchronous device operation whose enqueue call is `enqueue`, by the
statuses of its (at most three) native calls. -/
def async_device_summary (rt : Runtime) (enqueue : NativeCall) : Completion Unit × List Event :=
  if rt.status 0 ≠ cudaSuccess then
    (.thrown (.invalid_argument (rt.cudaGetErrorString (rt.status 0))),
      [.native .cudaStreamCreate])
  else if rt.status 1 ≠ cudaSuccess then
    if rt.status 2 ≠ cudaSuccess then
      (.terminated,
        [.native .cudaStreamCreate, .native enqueue, .native (.cudaStreamDestroy rt.stream)])
    else
      (.thrown (.invalid_argument (rt.cudaGetErrorString (rt.status 1))),
        [.native .cudaStreamCreate, .native enqueue, .native (.cudaStreamDestroy rt.stream)])
  else if rt.status 2 ≠ cudaSuccess then
    (.thrown (.invalid_argument (rt.cudaGetErrorString (rt.status 2))),
      [.native .cudaStreamCreate, .native enqueue, .native (.cudaStreamDestroy rt.stream)])
  else
    (.returned (),
      [.native .cudaStreamCreate, .native enqueue, .native (.cudaStreamDestroy rt.stream)])

/-- A call of one of the three overloads of `async_policy::copy`, with its arguments. -/
inductive AsyncCopy where
  | copy_1D (d s : unique_ptr) (x : Nat)
  | copy_2D (d s : unique_ptr) (x y : Nat)
  | copy_3D (d s : unique_ptr) (x y z : Nat)
      (d_off_x d_off_y d_off_z s_off_x s_off_y s_off_z : Nat)

/-- The overload a call selects, applied to the arguments. -/
def AsyncCopy.call : AsyncCopy → Native Unit
  | .copy_1D d s x => async_policy.copy_1D d s x
  | .copy_2D d s x y => async_policy.copy_2D d s x y
  | .copy_3D d s x y z dx dy dz sx sy sz => async_policy.copy_3D d s x y z dx dy dz sx sy sz

/-- The destination of a call. -/
def AsyncCopy.dst : AsyncCopy → unique_ptr
  | .copy_1D d _ _ => d
  | .copy_2D d _ _ _ => d
  | .copy_3D d _ _ _ _ _ _ _ _ _ _ => d

/-- The source of a call. -/
def AsyncCopy.src : AsyncCopy → unique_ptr
  | .copy_1D _ s _ => s
  | .copy_2D _ s _ _ => s
  | .copy_3D _ s _ _ _ _ _ _ _ _ _ => s

/-- The layout assertions of the overload a call selects. -/
def AsyncCopy.layout : AsyncCopy → List StaticAssert
  | .copy_1D d s _ => async_policy.copy_1D_layout d s
  | .copy_2D d s _ _ => async_policy.copy_2D_layout d s
  | .copy_3D d s _ _ _ _ _ _ _ _ _ => async_policy.copy_3D_layout d s

/-- The pinned-memory assertions of the overload a call selects. -/
def AsyncCopy.pinned : AsyncCopy → List StaticAssert
  | .copy_1D d s _ => async_policy.copy_1D_pinned d s
  | .copy_2D d s _ _ => async_policy.copy_2D_pinned d s
  | .copy_3D d s _ _ _ _ _ _ _ _ _ => async_policy.copy_3D_pinned d s

/-- The native calls that enqueue work on a stream. -/
def is_enqueue : NativeCall → Bool
  | .cudaMemcpyAsync _ _ _ _ _ => true
  | .cudaMemcpy2DAsync _ _ _ _ _ _ _ _ => true
  | .cudaMemcpy3DAsync _ _ => true
  | .cudaMemsetAsync _ _ _ _ => true
  | .cudaMemset2DAsync _ _ _ _ _ _ => true
  | .cudaMemset3DAsync _ _ _ _ => true
  | _ => false

/-- A sequence of native calls waits for `stream` to drain: after an enqueue and before the
destroy of `stream` it contains a synchronise on `stream`. -/
def waits_for_drain (stream : cudaStream_t) (calls : List NativeCall) : Prop :=
  ∃ i j k : Nat, i < j ∧ j < k ∧
    (∃ e, calls.get? i = some e ∧ is_enqueue e = true) ∧
    calls.get? j = some (.cudaStreamSynchronize stream) ∧
    calls.get? k = some (.cudaStreamDestroy stream)

/-- A side that is host-resident and not pinned. -/
def host_unpinned (p : unique_ptr) : Prop :=
  p.mem_location = memory_location.host ∧ p.pinned_memory = false

/-- A side that is device-resident and not pitched. -/
def device_unpitched (p : unique_ptr) : Prop :=
  p.mem_location = memory_location.device ∧ p.pitched_memory = false

/-- A call of a synchronous copy overload, of a synchronous device fill overload, or of a
`host_allocator::allocate` overload, with its arguments. -/
inductive SyncCall where
  | copy_1D (d s : unique_ptr) (x : Nat)
  | copy_2D (d s : unique_ptr) (x y : Nat)
  | copy_3D (d s : unique_ptr) (x y z : Nat)
      (d_off_x d_off_y d_off_z s_off_x s_off_y s_off_z : Nat)
  | fill_1D (p : unique_ptr) (value : Int) (x : Nat)
  | fill_2D (p : unique_ptr) (value : Int) (x y : Nat)
  | fill_3D (p : unique_ptr) (value : Int) (x y z : Nat)
  | allocate_1D (sizeof_value_type n : Nat)
  | allocate_2D (sizeof_value_type x y : Nat)
  | allocate_3D (sizeof_value_type x y z : Nat)

/-- What the function called returns: nothing for copy, the filled buffer for fill, the pointer
for allocate. -/
def SyncCall.value_type : SyncCall → Type
  | .copy_1D _ _ _ => Unit
  | .copy_2D _ _ _ _ => Unit
  | .copy_3D _ _ _ _ _ _ _ _ _ _ _ => Unit
  | .fill_1D _ _ _ => unique_ptr
  | .fill_2D _ _ _ _ => unique_ptr
  | .fill_3D _ _ _ _ _ => unique_ptr
  | .allocate_1D _ _ => Nat
  | .allocate_2D _ _ _ => Nat
  | .allocate_3D _ _ _ _ => Nat

/-- The function a call selects, applied to the arguments. -/
def SyncCall.call : (c : SyncCall) → Native c.value_type
  | .copy_1D d s x => sync_policy.copy_1D d s x
  | .copy_2D d s x y => sync_policy.copy_2D d s x y
  | .copy_3D d s x y z dx dy dz sx sy sz => sync_policy.copy_3D d s x y z dx dy dz sx sy sz
  | .fill_1D p value x => sync_policy.fill_1D p value x
  | .fill_2D p value x y => sync_policy.fill_2D p value x y
  | .fill_3D p value x y z => sync_policy.fill_3D p value x y z
  | .allocate_1D sz n => host_allocator.allocate_1D sz n
  | .allocate_2D sz x y => host_allocator.allocate_2D sz x y
  | .allocate_3D sz x y z => host_allocator.allocate_3D sz x y z

/-- The call compiles and is one of the functions meant: the static assertions of a copy hold,
the target of a fill is device memory of the layout its overload asserts. -/
def SyncCall.well_formed : SyncCall → Prop
  | .copy_1D d s _ => diagnostics (sync_policy.copy_1D_layout d s) = []
  | .copy_2D d s _ _ => diagnostics (sync_policy.copy_2D_layout d s) = []
  | .copy_3D d s _ _ _ _ _ _ _ _ _ => diagnostics (sync_policy.copy_3D_layout d s) = []
  | .fill_1D p _ _ => p.mem_location = memory_location.device ∧ p.pitched_memory = false
  | .fill_2D p _ _ _ => p.mem_location = memory_location.device ∧ p.pitched_memory = true
  | .fill_3D p _ _ _ _ => p.mem_location = memory_location.device ∧ p.pitched_memory = true
  | .allocate_1D _ _ => True
  | .allocate_2D _ _ _ => True
  | .allocate_3D _ _ _ _ => True

/-- A call of one of the three overloads of `async_policy::fill`, with its arguments. -/
inductive AsyncFill where
  | fill_1D (p : unique_ptr) (value : Int) (x : Nat)
  | fill_2D (p : unique_ptr) (value : Int) (x y : Nat)
  | fill_3D (p : unique_ptr) (value : Int) (x y z : Nat)

/-- The overload a call selects, applied to the arguments. -/
def AsyncFill.call : AsyncFill → Native Unit
  | .fill_1D p value x => async_policy.fill_1D p value x
  | .fill_2D p value x y => async_policy.fill_2D p value x y
  | .fill_3D p value x y z => async_policy.fill_3D p value x y z

/-- The call selects the overload for device memory and compiles: the target is device memory
of the layout that overload asserts. -/
def AsyncFill.on_device : AsyncFill → Prop
  | .fill_1D p _ _ => p.mem_location = memory_location.device ∧ p.pitched_memory = false
  | .fill_2D p _ _ _ => p.mem_location = memory_location.device ∧ p.pitched_memory = true
  | .fill_3D p _ _ _ _ => p.mem_location = memory_location.device ∧ p.pitched_memory = true

/-- A call of an asynchronous device operation: one of the three asynchronous copies or one of
the three asynchronous fills. -/
inductive AsyncDeviceOp where
  | copy (c : AsyncCopy)
  | fill (f : AsyncFill)

/-- The function a call selects, applied to the arguments. -/
def AsyncDeviceOp.call : AsyncDeviceOp → Native Unit
  | .copy c => c.call
  | .fill f => f.call

/-- The call compiles and is an operation on a stream: the static assertions of a copy hold,
the target of a fill is device memory of the layout its overload asserts. -/
def AsyncDeviceOp.well_formed : AsyncDeviceOp → Prop
  | .copy c => diagnostics (c.layout ++ c.pinned) = []
  | .fill f => f.on_device

/-- The calls of `SyncCall` that are a copy or a fill (not an allocation). -/
def SyncCall.is_transfer : SyncCall → Bool
  | .allocate_1D _ _ => false
  | .allocate_2D _ _ _ => false
  | .allocate_3D _ _ _ _ => false
  | _ => true

/-- The number of native calls of a trace that satisfy `p`. -/
def count_native (p : NativeCall → Bool) (events : List Event) : Nat :=
  (native_calls events).countP p

/-- The native call that creates a stream. -/
def is_create : NativeCall → Bool
  | .cudaStreamCreate => true
  | _ => false

/-- The native call that destroys a stream. -/
def is_destroy : NativeCall → Bool
  | .cudaStreamDestroy _ => true
  | _ => false

/-- The status codes that have a `case` label in `getCufftErrorString`. -/
def cufft_known_codes : List cufftResult :=
  [CUFFT_SUCCESS, CUFFT_INVALID_PLAN, CUFFT_ALLOC_FAILED, CUFFT_INVALID_TYPE,
  CUFFT_INVALID_VALUE, CUFFT_INTERNAL_ERROR, CUFFT_EXEC_FAILED, CUFFT_SETUP_FAILED,
  CUFFT_INVALID_SIZE, CUFFT_UNALIGNED_DATA, CUFFT_INCOMPLETE_PARAMETER_LIST,
  CUFFT_INVALID_DEVICE, CUFFT_PARSE_ERROR, CUFFT_NO_WORKSPACE, CUFFT_NOT_IMPLEMENTED,
  CUFFT_LICENSE_ERROR]

/-- The call ended the process: by `std::terminate` or by `std::exit`. -/
def ends_process {α : Type} : Completion α → Prop
  | .terminated => True
  | .exited _ => True
  | _ => False

/-! ## Concrete inputs -/

/-- An environment in which the native call at position `k` returns `err` and every other call
succeeds. -/
def runtime_failing_at (k : Nat) (err : cudaError_t) : Runtime where
  status := fun i => if i = k then err else cudaSuccess
  stream := 7
  hostPtr := 4096
  cudaGetErrorString := fun e =>
    if e = 0 then "no error" else if e = 2 then "out of memory"
    else if e = 4 then "unspecified launch failure" else if e = 11 then "invalid argument"
    else "unknown error"
  cudaErrorInvalidValue := 11
  cudaErrorMemoryAllocation := 2

/-- An environment in which the native calls before position `k` succeed and every call from
position `k` on returns `err`. -/
def runtime_failing_from (k : Nat) (err : cudaError_t) : Runtime :=
  { runtime_failing_at k err with status := fun i => if i < k then cudaSuccess else err }

/-- An environment in which every native call succeeds. -/
def runtime_ok : Runtime := { runtime_failing_at 0 cudaSuccess with status := fun _ => cudaSuccess }

/-- A linear device buffer of `float` at address 256. -/
def device_linear : unique_ptr :=
  { sizeof_element_type := 4, mem_location := .device, pitched_memory := false,
    pinned_memory := false, get := 256, pitch := 0, pointee := [] }

/-- A pitched device buffer of `float` at address 512 with a pitch of 512 bytes. -/
def device_pitched : unique_ptr :=
  { sizeof_element_type := 4, mem_location := .device, pitched_memory := true,
    pinned_memory := false, get := 512, pitch := 512, pointee := [] }

/-- A pinned linear host buffer of four 4-byte elements at address 1024. -/
def host_pinned : unique_ptr :=
  { sizeof_element_type := 4, mem_location := .host, pitched_memory := false,
    pinned_memory := true, get := 1024, pitch := 0, pointee := [1, 2, 3, 4] }

/-- A linear host buffer of four 4-byte elements at address 2048 that is not pinned. -/
def host_pageable : unique_ptr :=
  { sizeof_element_type := 4, mem_location := .host, pitched_memory := false,
    pinned_memory := false, get := 2048, pitch := 0, pointee := [1, 2, 3, 4] }

/-- A linear host buffer of three 8-byte elements at address 4096 that is not pinned. -/
def host_pageable_wide : unique_ptr :=
  { sizeof_element_type := 8, mem_location := .host, pitched_memory := false,
    pinned_memory := false, get := 4096, pitch := 0, pointee := [0, 0, 0] }

/-- The allocator `host_allocator<float, pointer_1D>`. -/
def allocator_float_1D : host_allocator := { value_type := "float", mem_layout := .pointer_1D }

/-- The allocator `host_allocator<double, pointer_2D>`. -/
def allocator_double_2D : host_allocator := { value_type := "double", mem_layout := .pointer_2D }

/-! ## Runs of the asynchronous copies -/

theorem async_copy_1D_run (rt : Runtime) (d s : unique_ptr) (x : Nat)
    (hs : diagnostics (async_policy.copy_1D_layout d s ++ async_policy.copy_1D_pinned d s) = []) :
    run (async_policy.copy_1D d s x) rt =
      async_device_summary rt (.cudaMemcpyAsync d.get s.get (size_t_mul x d.sizeof_element_type)
        (memcpy_direction d.mem_location s.mem_location) rt.stream) := by
  by_cases h0 : rt.status 0 = cudaSuccess <;> by_cases h1 : rt.status 1 = cudaSuccess <;>
    by_cases h2 : rt.status 2 = cudaSuccess <;>
    simp [run, async_policy.copy_1D, instantiate, hs, bind, Native.bind, runtime, native, pure,
      throw_invalid_argument, terminate, async_device_summary, h0, h1, h2]

theorem async_copy_2D_run (rt : Runtime) (d s : unique_ptr) (x y : Nat)
    (hs : diagnostics (async_policy.copy_2D_layout d s ++ async_policy.copy_2D_pinned d s) = []) :
    run (async_policy.copy_2D d s x y) rt =
      async_device_summary rt (.cudaMemcpy2DAsync d.get
        (if d.mem_location = memory_location.host then size_t_mul x d.sizeof_element_type
          else d.pitch)
        s.get
        (if s.mem_location = memory_location.host then size_t_mul x d.sizeof_element_type
          else s.pitch)
        (size_t_mul x d.sizeof_element_type) y
        (memcpy_direction d.mem_location s.mem_location) rt.stream) := by
  by_cases h0 : rt.status 0 = cudaSuccess <;> by_cases h1 : rt.status 1 = cudaSuccess <;>
    by_cases h2 : rt.status 2 = cudaSuccess <;>
    simp [run, async_policy.copy_2D, instantiate, hs, bind, Native.bind, runtime, native, pure,
      throw_invalid_argument, terminate, async_device_summary, h0, h1, h2]

theorem async_copy_3D_run (rt : Runtime) (d s : unique_ptr) (x y z dx dy dz sx sy sz : Nat)
    (hs : diagnostics (async_policy.copy_3D_layout d s ++ async_policy.copy_3D_pinned d s) = []) :
    run (async_policy.copy_3D d s x y z dx dy dz sx sy sz) rt =
      async_device_summary rt
        (.cudaMemcpy3DAsync (detail.create_3D_parms d s x y z dx dy dz sx sy sz) rt.stream) := by
  by_cases h0 : rt.status 0 = cudaSuccess <;> by_cases h1 : rt.status 1 = cudaSuccess <;>
    by_cases h2 : rt.status 2 = cudaSuccess <;>
    simp [run, async_policy.copy_3D, instantiate, hs, bind, Native.bind, runtime, native, pure,
      throw_invalid_argument, terminate, async_device_summary, h0, h1, h2]

/-- A well-formed asynchronous copy runs as the summary says, for some enqueue call. -/
theorem async_copy_run (c : AsyncCopy) (rt : Runtime)
    (hwf : diagnostics (c.layout ++ c.pinned) = []) :
    ∃ e, is_enqueue e = true ∧ run c.call rt = async_device_summary rt e := by
  cases c with
  | copy_1D d s x =>
    have h := async_copy_1D_run rt d s x hwf
    exact ⟨_, by rfl, h⟩
  | copy_2D d s x y =>
    have h := async_copy_2D_run rt d s x y hwf
    exact ⟨_, by rfl, h⟩
  | copy_3D d s x y z dx dy dz sx sy sz =>
    have h := async_copy_3D_run rt d s x y z dx dy dz sx sy sz hwf
    exact ⟨_, by rfl, h⟩

/-- An asynchronous copy with a failing static assertion is ill-formed and issues nothing. -/
theorem async_copy_ill_formed (c : AsyncCopy) (rt : Runtime)
    (hwf : diagnostics (c.layout ++ c.pinned) ≠ []) :
    run c.call rt = (.ill_formed (diagnostics (c.layout ++ c.pinned)), []) := by
  cases c <;>
    simp_all [run, AsyncCopy.call, AsyncCopy.layout, AsyncCopy.pinned, async_policy.copy_1D,
      async_policy.copy_2D, async_policy.copy_3D, instantiate]

/-- A sequence of calls without a synchronise does not wait for any stream to drain. -/
theorem not_waits_of_no_synchronise (stream : cudaStream_t) (calls : List NativeCall)
    (h : ∀ st, NativeCall.cudaStreamSynchronize st ∉ calls) : ¬ waits_for_drain stream calls := by
  rintro ⟨i, j, k, -, -, -, hj, -⟩
  exact h stream (List.get?_mem hj)

/-- Once the stream is created, the native calls are the creation, the enqueue and the
destruction of the stream, whatever the enqueue and the destroy return. -/
theorem summary_calls_of_created (rt : Runtime) (e : NativeCall)
    (h0 : rt.status 0 = cudaSuccess) :
    native_calls (async_device_summary rt e).2 =
      [.cudaStreamCreate, e, .cudaStreamDestroy rt.stream] := by
  unfold async_device_summary
  simp only [h0, ne_eq, not_true_eq_false, if_false]
  split <;> split <;> rfl

/-! ## C1 -/

/-- C1 (as amended): in every asynchronous copy (1D, 2D, 3D) in which stream creation and the
enqueue both succeed, the native calls issued are exactly the stream creation, the enqueue and
the destruction of the stream, in this order; no wait or synchronise on the stream is issued
between the enqueue and the destroy (nor anywhere else), and the call returns normally exactly
when the destroy returns the success status. -/
theorem async_copy_issues_no_synchronise (c : AsyncCopy) (rt : Runtime)
    (hwf : diagnostics (c.layout ++ c.pinned) = [])
    (h0 : rt.status 0 = cudaSuccess) (h1 : rt.status 1 = cudaSuccess) :
    (∃ e, is_enqueue e = true ∧
      native_calls (run c.call rt).2 = [.cudaStreamCreate, e, .cudaStreamDestroy rt.stream]) ∧
    (∀ st, NativeCall.cudaStreamSynchronize st ∉ native_calls (run c.call rt).2) ∧
    ¬ waits_for_drain rt.stream (native_calls (run c.call rt).2) ∧
    ((run c.call rt).1 = .returned () ↔ rt.status 2 = cudaSuccess) := by
  obtain ⟨e, he, hrun⟩ := async_copy_run c rt hwf
  have hret : (run c.call rt).1 = .returned () ↔ rt.status 2 = cudaSuccess := by
    rw [hrun]
    by_cases h2 : rt.status 2 = cudaSuccess <;> simp [async_device_summary, h0, h1, h2]
  have hcalls := summary_calls_of_created rt e h0
  have hno : ∀ st, NativeCall.cudaStreamSynchronize st ∉ native_calls (run c.call rt).2 := by
    intro st
    rw [hrun, hcalls]
    intro hmem
    simp only [List.mem_cons, List.mem_singleton, List.not_mem_nil, or_false] at hmem
    rcases hmem with h | h | h
    · cases h
    · subst h; cases he
    · cases h
  refine ⟨⟨e, he, ?_⟩, hno, not_waits_of_no_synchronise _ _ hno, hret⟩
  rw [hrun, hcalls]

/-- Witness of C1 (as amended): a 1D asynchronous copy from pinned host memory to device memory
in an environment where every native call succeeds. -/
theorem async_copy_issues_no_synchronise_witness :
    native_calls (run (async_policy.copy_1D device_linear host_pinned 4) runtime_ok).2 =
        [.cudaStreamCreate,
          .cudaMemcpyAsync 256 1024 16 .cudaMemcpyHostToDevice 7,
          .cudaStreamDestroy 7] ∧
      ¬ waits_for_drain 7
        (native_calls (run (async_policy.copy_1D device_linear host_pinned 4) runtime_ok).2) :=
  ⟨by decide,
    (async_copy_issues_no_synchronise (.copy_1D device_linear host_pinned 4) runtime_ok
      (by decide) (by decide) (by decide)).2.2.1⟩

/-- Counterexample to C1 as stated: the 1D asynchronous copy of four elements from pinned host
memory to device memory, with every native call succeeding, compiles, creates the stream and
enqueues the transfer, and its native calls do not contain a synchronise on the stream between
the enqueue and the destroy. -/
theorem async_copy_waits_for_drain_counterexample :
    diagnostics (async_policy.copy_1D_layout device_linear host_pinned ++
        async_policy.copy_1D_pinned device_linear host_pinned) = [] ∧
      runtime_ok.status 0 = cudaSuccess ∧ runtime_ok.status 1 = cudaSuccess ∧
      (run (async_policy.copy_1D device_linear host_pinned 4) runtime_ok).1 = .returned () ∧
      ¬ waits_for_drain runtime_ok.stream
        (native_calls (run (async_policy.copy_1D device_linear host_pinned 4) runtime_ok).2) := by
  refine ⟨by decide, by decide, by decide, by decide, ?_⟩
  have hcalls :
      native_calls (run (async_policy.copy_1D device_linear host_pinned 4) runtime_ok).2 =
        [.cudaStreamCreate, .cudaMemcpyAsync 256 1024 16 .cudaMemcpyHostToDevice 7,
          .cudaStreamDestroy 7] := by decide
  rw [hcalls]
  apply not_waits_of_no_synchronise
  intro st
  simp

/-! ## C2 -/

/-- C2: in every asynchronous copy (1D, 2D, 3D) in which the stream was created and the enqueue
returns a failure status, the stream destroy is issued, as the last native call, before the
call ends; if the destroy succeeds the caller gets the error built from the status of the
enqueue (not of the destroy); if the destroy fails too the process terminates and no error is
reported. -/
theorem async_copy_enqueue_failure (c : AsyncCopy) (rt : Runtime)
    (hwf : diagnostics (c.layout ++ c.pinned) = [])
    (h0 : rt.status 0 = cudaSuccess) (h1 : rt.status 1 ≠ cudaSuccess) :
    (∃ e, is_enqueue e = true ∧
      (run c.call rt).2 =
        [.native .cudaStreamCreate, .native e, .native (.cudaStreamDestroy rt.stream)]) ∧
    (rt.status 2 = cudaSuccess →
      (run c.call rt).1 =
        .thrown (.invalid_argument (rt.cudaGetErrorString (rt.status 1)))) ∧
    (rt.status 2 ≠ cudaSuccess → (run c.call rt).1 = .terminated) := by
  obtain ⟨e, he, hrun⟩ := async_copy_run c rt hwf
  rw [hrun]
  refine ⟨⟨e, he, ?_⟩, ?_, ?_⟩
  · by_cases h2 : rt.status 2 = cudaSuccess <;> simp [async_device_summary, h0, h1, h2]
  · intro h2; simp [async_device_summary, h0, h1, h2]
  · intro h2; simp [async_device_summary, h0, h1, h2]

/-- Witness of C2: a 2D asynchronous copy whose enqueue fails with status 11 while the destroy
succeeds reports the description of status 11; when the enqueue and the destroy both fail with
status 4 the process terminates. -/
theorem async_copy_enqueue_failure_witness :
    (run (async_policy.copy_2D device_pitched host_pinned 4 1) (runtime_failing_at 1 11)).1 =
        .thrown (.invalid_argument "invalid argument") ∧
      (run (async_policy.copy_2D device_pitched host_pinned 4 1) (runtime_failing_from 1 4)).1 =
        .terminated :=
  ⟨(async_copy_enqueue_failure (.copy_2D device_pitched host_pinned 4 1)
      (runtime_failing_at 1 11) (by decide) (by decide) (by decide)).2.1 (by decide),
   (async_copy_enqueue_failure (.copy_2D device_pitched host_pinned 4 1)
      (runtime_failing_from 1 4) (by decide) (by decide) (by decide)).2.2 (by decide)⟩

/-- The helper `detail::throw_error` always throws and issues nothing. -/
theorem throw_error_throws {α : Type} (err : cudaError_t) (rt : Runtime) (tr : List Event) :
    ∃ e, (detail.throw_error err : Native α) rt tr = (.thrown e, tr) := by
  unfold detail.throw_error
  split_ifs <;> exact ⟨_, rfl⟩

/-! ## C3 -/

/-- C3: each synchronous copy overload, each synchronous device fill overload and each
`host_allocator::allocate` overload issues exactly one native call; it returns normally if and
only if that call returned the success status, and on any other status it throws, so no value
(no pointer, for allocate) is returned after a failed native call. -/
theorem sync_call_reports_failure (c : SyncCall) (rt : Runtime) (hwf : c.well_formed) :
    (∃ n, (run c.call rt).2 = [.native n]) ∧
    ((∃ v, (run c.call rt).1 = .returned v) ↔ rt.status 0 = cudaSuccess) ∧
    (rt.status 0 ≠ cudaSuccess → ∃ e, (run c.call rt).1 = .thrown e) := by
  cases c with
  | copy_1D d s x =>
    by_cases h : rt.status 0 = cudaSuccess <;>
      simp_all [SyncCall.well_formed, SyncCall.call, run, sync_policy.copy_1D, instantiate, bind,
        Native.bind, runtime, native, pure, throw_invalid_argument]
  | copy_2D d s x y =>
    by_cases h : rt.status 0 = cudaSuccess <;>
      simp_all [SyncCall.well_formed, SyncCall.call, run, sync_policy.copy_2D, instantiate, bind,
        Native.bind, runtime, native, pure, throw_invalid_argument]
  | copy_3D d s x y z dx dy dz sx sy sz =>
    by_cases h : rt.status 0 = cudaSuccess <;>
      simp_all [SyncCall.well_formed, SyncCall.call, run, sync_policy.copy_3D, instantiate, bind,
        Native.bind, runtime, native, pure, throw_invalid_argument]
  | fill_1D p value x =>
    obtain ⟨hl, hp⟩ := hwf
    by_cases h : rt.status 0 = cudaSuccess <;>
      simp [SyncCall.call, run, sync_policy.fill_1D, instantiate, diagnostics, bind,
        Native.bind, runtime, native, pure, throw_invalid_argument, hl, hp, h]
  | fill_2D p value x y =>
    obtain ⟨hl, hp⟩ := hwf
    by_cases h : rt.status 0 = cudaSuccess <;>
      simp [SyncCall.call, run, sync_policy.fill_2D, instantiate, diagnostics, bind,
        Native.bind, runtime, native, pure, throw_invalid_argument, hl, hp, h]
  | fill_3D p value x y z =>
    obtain ⟨hl, hp⟩ := hwf
    by_cases h : rt.status 0 = cudaSuccess <;>
      simp [SyncCall.call, run, sync_policy.fill_3D, instantiate, diagnostics, bind,
        Native.bind, runtime, native, pure, throw_invalid_argument, hl, hp, h]
  | allocate_1D sz n =>
    by_cases h : rt.status 0 = cudaSuccess
    · simp [SyncCall.call, run, host_allocator.allocate_1D, bind, Native.bind, runtime, native,
        pure, h]
    · obtain ⟨e, he⟩ := @throw_error_throws Unit (rt.status 0) rt
        [.native (.cudaMallocHost (size_t_mul n sz))]
      simp [SyncCall.call, run, host_allocator.allocate_1D, bind, Native.bind, runtime, native,
        pure, h, he]
  | allocate_2D sz x y =>
    by_cases h : rt.status 0 = cudaSuccess
    · simp [SyncCall.call, run, host_allocator.allocate_2D, bind, Native.bind, runtime, native,
        pure, h]
    · obtain ⟨e, he⟩ := @throw_error_throws Unit (rt.status 0) rt
        [.native (.cudaMallocHost (size_t_mul (size_t_mul x y) sz))]
      simp [SyncCall.call, run, host_allocator.allocate_2D, bind, Native.bind, runtime, native,
        pure, h, he]
  | allocate_3D sz x y z =>
    by_cases h : rt.status 0 = cudaSuccess
    · simp [SyncCall.call, run, host_allocator.allocate_3D, bind, Native.bind, runtime, native,
        pure, h]
    · obtain ⟨e, he⟩ := @throw_error_throws Unit (rt.status 0) rt
        [.native (.cudaMallocHost (size_t_mul (size_t_mul (size_t_mul x y) z) sz))]
      simp [SyncCall.call, run, host_allocator.allocate_3D, bind, Native.bind, runtime, native,
        pure, h, he]

/-- Witness of C3: a host allocation whose native allocation fails with status 2 throws and
returns no pointer; a synchronous 1D copy returns normally exactly when its native call
succeeds. -/
theorem sync_call_reports_failure_witness :
    (∃ e, (run (host_allocator.allocate_1D 4 3) (runtime_failing_at 0 2)).1 = .thrown e) ∧
      ((∃ v, (run (sync_policy.copy_1D device_linear host_pageable 4) runtime_ok).1 =
          .returned v) ↔ runtime_ok.status 0 = cudaSuccess) :=
  ⟨(sync_call_reports_failure (.allocate_1D 4 3) (runtime_failing_at 0 2) trivial).2.2
      (by decide),
   (sync_call_reports_failure (.copy_1D device_linear host_pageable 4) runtime_ok
      (by decide : diagnostics (sync_policy.copy_1D_layout device_linear host_pageable) = [])).2.1⟩

/-! ## C4 -/

/-- The diagnostics of two groups of assertions are those of the first followed by those of
the second. -/
theorem diagnostics_append (a b : List StaticAssert) :
    diagnostics (a ++ b) = diagnostics a ++ diagnostics b := by
  simp [diagnostics]

/-- The pinned-memory assertions of an asynchronous copy fail exactly when a host-resident side
is not pinned. -/
theorem pinned_diagnostics_iff (c : AsyncCopy) :
    diagnostics c.pinned ≠ [] ↔ host_unpinned c.dst ∨ host_unpinned c.src := by
  cases c with
  | copy_1D d s x =>
    cases hd : d.mem_location <;> cases hs : s.mem_location <;>
      cases hdp : d.pinned_memory <;> cases hsp : s.pinned_memory <;>
      simp [AsyncCopy.pinned, AsyncCopy.dst, AsyncCopy.src, async_policy.copy_1D_pinned,
        diagnostics, host_unpinned, hd, hs, hdp, hsp]
  | copy_2D d s x y =>
    cases hd : d.mem_location <;> cases hs : s.mem_location <;>
      cases hdp : d.pinned_memory <;> cases hsp : s.pinned_memory <;>
      simp [AsyncCopy.pinned, AsyncCopy.dst, AsyncCopy.src, async_policy.copy_2D_pinned,
        diagnostics, host_unpinned, hd, hs, hdp, hsp]
  | copy_3D d s x y z dx dy dz sx sy sz =>
    cases hd : d.mem_location <;> cases hs : s.mem_location <;>
      cases hdp : d.pinned_memory <;> cases hsp : s.pinned_memory <;>
      simp [AsyncCopy.pinned, AsyncCopy.dst, AsyncCopy.src, async_policy.copy_3D_pinned,
        diagnostics, host_unpinned, hd, hs, hdp, hsp]

/-- A run that follows the summary starts by creating the stream and is not ill-formed. -/
theorem summary_creates_stream (rt : Runtime) (e : NativeCall) :
    (async_device_summary rt e).2.head? = some (.native .cudaStreamCreate) ∧
      ∀ ds, (async_device_summary rt e).1 ≠ .ill_formed ds := by
  unfold async_device_summary
  split_ifs <;> simp

/-- C4: in every asynchronous copy (1D, 2D, 3D), for every combination of locations and pinned
flags: if the destination or the source is host-resident and not pinned, a pinned-memory
assertion fails, the copy is rejected and nothing is issued (no stream creation, no transfer);
if every host-resident side is pinned no pinned-memory assertion fails, and when the layout
assertions hold as well the copy is not rejected and starts by creating the stream. -/
theorem async_copy_pinned_check (c : AsyncCopy) (rt : Runtime) :
    (host_unpinned c.dst ∨ host_unpinned c.src →
      diagnostics c.pinned ≠ [] ∧
      ∃ ds, ds ≠ [] ∧ run c.call rt = (.ill_formed ds, [])) ∧
    (¬ (host_unpinned c.dst ∨ host_unpinned c.src) →
      diagnostics c.pinned = [] ∧
      (diagnostics c.layout = [] →
        (∀ ds, (run c.call rt).1 ≠ .ill_formed ds) ∧
        (run c.call rt).2.head? = some (.native .cudaStreamCreate))) := by
  constructor
  · intro h
    have hp : diagnostics c.pinned ≠ [] := (pinned_diagnostics_iff c).mpr h
    have hall : diagnostics (c.layout ++ c.pinned) ≠ [] := by
      rw [diagnostics_append]
      intro hnil
      exact hp (List.append_eq_nil.mp hnil).2
    exact ⟨hp, _, hall, async_copy_ill_formed c rt hall⟩
  · intro h
    have hp : diagnostics c.pinned = [] := by
      by_contra hne
      exact h ((pinned_diagnostics_iff c).mp hne)
    refine ⟨hp, fun hl => ?_⟩
    have hall : diagnostics (c.layout ++ c.pinned) = [] := by
      rw [diagnostics_append, hl, hp]; rfl
    obtain ⟨e, -, hrun⟩ := async_copy_run c rt hall
    rw [hrun]
    exact ⟨(summary_creates_stream rt e).2, (summary_creates_stream rt e).1⟩

/-- Witness of C4: a 3D asynchronous copy from pageable host memory is rejected without any
event; the same copy from pinned host memory passes the pinned-memory assertions. -/
theorem async_copy_pinned_check_witness :
    (∃ ds, ds ≠ [] ∧
        run (async_policy.copy_3D device_pitched host_pageable 2 2 1 0 0 0 0 0 0) runtime_ok =
          (.ill_formed ds, [])) ∧
      diagnostics (async_policy.copy_3D_pinned device_pitched host_pinned) = [] :=
  ⟨((async_copy_pinned_check (.copy_3D device_pitched host_pageable 2 2 1 0 0 0 0 0 0)
      runtime_ok).1 (Or.inr ⟨rfl, rfl⟩)).2,
   ((async_copy_pinned_check (.copy_3D device_pitched host_pinned 2 2 1 0 0 0 0 0 0)
      runtime_ok).2 (by simp [host_unpinned, AsyncCopy.dst, AsyncCopy.src, device_pitched,
        host_pinned])).1⟩

/-! ## C5 -/

/-- C5 (as amended): every asynchronous fill (1D, 2D, 3D) whose target is host-resident, pinned
or not, is not rejected: it issues no native call and creates no stream, it starts one detached
thread, handing it the closure of its overload, and returns normally without waiting for the
thread. -/
theorem async_host_fill_starts_worker (p : unique_ptr) (value : Int) (x y z : Nat)
    (rt : Runtime) (hp : p.mem_location = memory_location.host) :
    run (async_policy.fill_1D p value x) rt =
        (.returned (), [.detached_thread .fill_n_x]) ∧
      run (async_policy.fill_2D p value x y) rt =
        (.returned (), [.detached_thread .fill_n_x_y]) ∧
      run (async_policy.fill_3D p value x y z) rt =
        (.returned (), [.detached_thread .fill_n_x_y_z]) := by
  simp [run, async_policy.fill_1D, async_policy.fill_2D, async_policy.fill_3D, hp,
    detach_thread]

/-- Witness of C5 (as amended): the three asynchronous fills of a pageable host buffer. -/
theorem async_host_fill_starts_worker_witness :
    run (async_policy.fill_1D host_pageable 171 2) runtime_ok =
        (.returned (), [.detached_thread .fill_n_x]) ∧
      run (async_policy.fill_2D host_pageable 171 2 2) runtime_ok =
        (.returned (), [.detached_thread .fill_n_x_y]) ∧
      run (async_policy.fill_3D host_pageable 171 2 2 1) runtime_ok =
        (.returned (), [.detached_thread .fill_n_x_y_z]) :=
  async_host_fill_starts_worker host_pageable 171 2 2 1 runtime_ok rfl

/-- Counterexample to C5 as stated: the 1D asynchronous fill of a host buffer that is not
pinned is not rejected; it returns normally after starting a detached thread. -/
theorem async_host_fill_rejected_counterexample :
    host_unpinned host_pageable ∧
      run (async_policy.fill_1D host_pageable 171 4) runtime_ok =
        (.returned (), [.detached_thread .fill_n_x]) ∧
      ¬ ∃ ds, run (async_policy.fill_1D host_pageable 171 4) runtime_ok = (.ill_formed ds, []) := by
  refine ⟨⟨rfl, rfl⟩, by decide, ?_⟩
  rintro ⟨ds, h⟩
  have h1 : run (async_policy.fill_1D host_pageable 171 4) runtime_ok =
      (.returned (), [.detached_thread .fill_n_x]) := by decide
  rw [h1] at h
  cases h

/-! ## C6 -/

/-- C6: for both policies and all buffer types, the layout assertions of a 1D copy hold if and
only if neither the destination nor the source is pitched, whatever the locations; when a side
is pitched the call is rejected and nothing is issued (no transfer, no stream creation), and a
synchronous 1D copy of two unpitched sides is not rejected. -/
theorem copy_1D_layout_check (d s : unique_ptr) (x : Nat) (rt : Runtime) :
    (diagnostics (sync_policy.copy_1D_layout d s) = [] ↔
      d.pitched_memory = false ∧ s.pitched_memory = false) ∧
    (diagnostics (async_policy.copy_1D_layout d s) = [] ↔
      d.pitched_memory = false ∧ s.pitched_memory = false) ∧
    (d.pitched_memory = true ∨ s.pitched_memory = true →
      (∃ ds, ds ≠ [] ∧ run (sync_policy.copy_1D d s x) rt = (.ill_formed ds, [])) ∧
      (∃ ds, ds ≠ [] ∧ run (async_policy.copy_1D d s x) rt = (.ill_formed ds, []))) ∧
    (d.pitched_memory = false ∧ s.pitched_memory = false →
      ∀ ds, (run (sync_policy.copy_1D d s x) rt).1 ≠ .ill_formed ds) := by
  refine ⟨?_, ?_, ?_, ?_⟩
  · cases hd : d.pitched_memory <;> cases hs : s.pitched_memory <;>
      simp [sync_policy.copy_1D_layout, diagnostics, hd, hs]
  · cases hd : d.pitched_memory <;> cases hs : s.pitched_memory <;>
      simp [async_policy.copy_1D_layout, diagnostics, hd, hs]
  · intro h
    have hsync : diagnostics (sync_policy.copy_1D_layout d s) ≠ [] := by
      cases hd : d.pitched_memory <;> cases hs : s.pitched_memory <;>
        simp_all [sync_policy.copy_1D_layout, diagnostics]
    have hasync : diagnostics
        (async_policy.copy_1D_layout d s ++ async_policy.copy_1D_pinned d s) ≠ [] := by
      rw [diagnostics_append]
      cases hd : d.pitched_memory <;> cases hs : s.pitched_memory <;>
        simp_all [async_policy.copy_1D_layout, diagnostics]
    exact ⟨⟨_, hsync, by simp [run, sync_policy.copy_1D, instantiate, hsync]⟩,
      ⟨_, hasync, async_copy_ill_formed (.copy_1D d s x) rt hasync⟩⟩
  · rintro ⟨hd, hs⟩ ds
    by_cases h : rt.status 0 = cudaSuccess <;>
      simp [run, sync_policy.copy_1D, sync_policy.copy_1D_layout, instantiate, diagnostics, bind,
        Native.bind, runtime, native, pure, throw_invalid_argument, hd, hs, h]

/-- Witness of C6: a 1D copy whose destination is a pitched device buffer is rejected by both
policies without any event. -/
theorem copy_1D_layout_check_witness :
    (∃ ds, ds ≠ [] ∧
        run (sync_policy.copy_1D device_pitched host_pinned 4) runtime_ok = (.ill_formed ds, [])) ∧
      (∃ ds, ds ≠ [] ∧
        run (async_policy.copy_1D device_pitched host_pinned 4) runtime_ok =
          (.ill_formed ds, [])) :=
  (copy_1D_layout_check device_pitched host_pinned 4 runtime_ok).2.2.1 (Or.inl rfl)

/-! ## C7 -/

/-- C7: for both policies and all buffer types, the layout assertions of a 2D or 3D copy fail
if and only if some device-resident side is not pitched, so a host-resident side passes whether
it is pitched or not; the synchronous overloads are rejected exactly in that case, and the
asynchronous overloads are rejected in that case. -/
theorem copy_2D_3D_layout_check (d s : unique_ptr) (x y z dx dy dz sx sy sz : Nat)
    (rt : Runtime) :
    (diagnostics (sync_policy.copy_2D_layout d s) ≠ [] ↔
      device_unpitched d ∨ device_unpitched s) ∧
    (diagnostics (sync_policy.copy_3D_layout d s) ≠ [] ↔
      device_unpitched d ∨ device_unpitched s) ∧
    (diagnostics (async_policy.copy_2D_layout d s) ≠ [] ↔
      device_unpitched d ∨ device_unpitched s) ∧
    (diagnostics (async_policy.copy_3D_layout d s) ≠ [] ↔
      device_unpitched d ∨ device_unpitched s) ∧
    ((∃ ds, run (sync_policy.copy_2D d s x y) rt = (.ill_formed ds, [])) ↔
      device_unpitched d ∨ device_unpitched s) ∧
    ((∃ ds, run (sync_policy.copy_3D d s x y z dx dy dz sx sy sz) rt = (.ill_formed ds, [])) ↔
      device_unpitched d ∨ device_unpitched s) ∧
    (device_unpitched d ∨ device_unpitched s →
      (∃ ds, run (async_policy.copy_2D d s x y) rt = (.ill_formed ds, [])) ∧
      (∃ ds, run (async_policy.copy_3D d s x y z dx dy dz sx sy sz) rt =
        (.ill_formed ds, []))) := by
  have h2 : diagnostics (sync_policy.copy_2D_layout d s) ≠ [] ↔
      device_unpitched d ∨ device_unpitched s := by
    cases hd : d.mem_location <;> cases hs : s.mem_location <;>
      cases hdp : d.pitched_memory <;> cases hsp : s.pitched_memory <;>
      simp [sync_policy.copy_2D_layout, diagnostics, device_unpitched, hd, hs, hdp, hsp]
  have h3 : diagnostics (sync_policy.copy_3D_layout d s) ≠ [] ↔
      device_unpitched d ∨ device_unpitched s := by
    cases hd : d.mem_location <;> cases hs : s.mem_location <;>
      cases hdp : d.pitched_memory <;> cases hsp : s.pitched_memory <;>
      simp [sync_policy.copy_3D_layout, diagnostics, device_unpitched, hd, hs, hdp, hsp]
  have a2 : diagnostics (async_policy.copy_2D_layout d s) ≠ [] ↔
      device_unpitched d ∨ device_unpitched s := by
    cases hd : d.mem_location <;> cases hs : s.mem_location <;>
      cases hdp : d.pitched_memory <;> cases hsp : s.pitched_memory <;>
      simp [async_policy.copy_2D_layout, diagnostics, device_unpitched, hd, hs, hdp, hsp]
  have a3 : diagnostics (async_policy.copy_3D_layout d s) ≠ [] ↔
      device_unpitched d ∨ device_unpitched s := by
    cases hd : d.mem_location <;> cases hs : s.mem_location <;>
      cases hdp : d.pitched_memory <;> cases hsp : s.pitched_memory <;>
      simp [async_policy.copy_3D_layout, diagnostics, device_unpitched, hd, hs, hdp, hsp]
  refine ⟨h2, h3, a2, a3, ?_, ?_, ?_⟩
  · rw [← h2]
    by_cases hl : diagnostics (sync_policy.copy_2D_layout d s) = []
    · by_cases h : rt.status 0 = cudaSuccess <;>
        simp [run, sync_policy.copy_2D, instantiate, bind, Native.bind, runtime, native, pure,
          throw_invalid_argument, hl, h]
    · simp [run, sync_policy.copy_2D, instantiate, hl]
  · rw [← h3]
    by_cases hl : diagnostics (sync_policy.copy_3D_layout d s) = []
    · by_cases h : rt.status 0 = cudaSuccess <;>
        simp [run, sync_policy.copy_3D, instantiate, bind, Native.bind, runtime, native, pure,
          throw_invalid_argument, hl, h]
    · simp [run, sync_policy.copy_3D, instantiate, hl]
  · intro h
    have e2 : diagnostics
        (async_policy.copy_2D_layout d s ++ async_policy.copy_2D_pinned d s) ≠ [] := by
      rw [diagnostics_append]
      intro hnil
      exact (a2.mpr h) (List.append_eq_nil.mp hnil).1
    have e3 : diagnostics
        (async_policy.copy_3D_layout d s ++ async_policy.copy_3D_pinned d s) ≠ [] := by
      rw [diagnostics_append]
      intro hnil
      exact (a3.mpr h) (List.append_eq_nil.mp hnil).1
    exact ⟨⟨_, async_copy_ill_formed (.copy_2D d s x y) rt e2⟩,
      ⟨_, async_copy_ill_formed (.copy_3D d s x y z dx dy dz sx sy sz) rt e3⟩⟩

/-- Witness of C7: a 2D or 3D asynchronous copy whose destination is a linear device buffer is
rejected without any event. -/
theorem copy_2D_3D_layout_check_witness :
    (∃ ds, run (async_policy.copy_2D device_linear host_pinned 2 2) runtime_ok =
        (.ill_formed ds, [])) ∧
      (∃ ds, run (async_policy.copy_3D device_linear host_pinned 2 2 1 0 0 0 0 0 0) runtime_ok =
        (.ill_formed ds, [])) :=
  (copy_2D_3D_layout_check device_linear host_pinned 2 2 1 0 0 0 0 0 0 runtime_ok).2.2.2.2.2.2
    (Or.inl ⟨rfl, rfl⟩)

/-! ## C8 -/

/-- C8, the code at the failing input: a 3D copy of `2 x 2 x 2` elements of 4 bytes with
destination offset `(0, 1, 1)` builds a descriptor whose destination position is
`(0, 4, 4)`: the row and slice offsets are multiplied by the element size as well, where the
claim says position `(0 * 4 bytes, 1 row, 1 slice)`; the extent `(8, 2, 2)` scales only `x`. -/
theorem create_3D_parms_scales_row_and_slice_offsets :
    (detail.create_3D_parms device_pitched host_pinned 2 2 2 0 1 1 0 0 0).dstPos =
        { x := 0, y := 4, z := 4 } ∧
      (detail.create_3D_parms device_pitched host_pinned 2 2 2 0 1 1 0 0 0).dstPos ≠
        { x := 0 * 4, y := 1, z := 1 } ∧
      (detail.create_3D_parms device_pitched host_pinned 2 2 2 0 1 1 0 0 0).extent =
        { width := 2 * 4, height := 2, depth := 2 } := by
  decide

/-! ## C9 -/

/-- C9, the code at the failing input: the synchronous host fill of the first two of four
4-byte elements with the value `0xAB` assigns the converted value to each element, so the
elements read `0x000000AB`: byte 0 is `0xAB` but byte 1 is 0, where the claim says every byte
is `0xAB` (the element reads `0xABABABAB`). The elements from index 2 on are unchanged. -/
theorem sync_host_fill_assigns_converted_value :
    run (sync_policy.fill_1D host_pageable 0xAB 2) runtime_ok =
        (.returned { host_pageable with pointee := [0xAB, 0xAB, 3, 4] }, []) ∧
      byte_of 0xAB 0 = 0xAB ∧ byte_of 0xAB 1 = 0 ∧ (0xAB : Nat) ≠ 0xABABABAB := by
  decide

/-! ## C10 -/

/-- C10, the code at the failing input: the synchronous 2D copy of a row of 3 elements from a
host buffer of 8-byte elements to a pitched device buffer of 4-byte elements hands the native
primitive the source pitch 12, which is `x` times the element size of the destination, where
the claim says `x` times the element size of the source, 24; `create_3D_parms` on the same
buffers does hand over 24. -/
theorem sync_copy_2D_source_pitch_uses_destination_size :
    (run (sync_policy.copy_2D device_pitched host_pageable_wide 3 1) runtime_ok).2 =
        [.native (.cudaMemcpy2D 512 512 4096 12 12 1 .cudaMemcpyHostToDevice)] ∧
      3 * host_pageable_wide.sizeof_element_type = 24 ∧
      (detail.create_3D_parms device_pitched host_pageable_wide 3 1 1 0 0 0 0 0 0).srcPtr.pitch =
        24 := by
  decide

/-! ## C11 -/

/-- C11 (as amended): `allocate` makes no check of its own on the extents. In every layout, for
all extents (zero and overflowing ones included), it asks the native allocator for the byte
count computed in `std::size_t` arithmetic, the product of the extents and `sizeof(T)` modulo
`2 ^ 64`, and whenever that native allocation succeeds it returns the pointer the native
allocator wrote; it fails only when the native allocation returns a failure status. -/
theorem allocate_requests_wrapped_byte_count (sz n x y z : Nat) (rt : Runtime)
    (h : rt.status 0 = cudaSuccess) :
    run (host_allocator.allocate_1D sz n) rt =
        (.returned rt.hostPtr, [.native (.cudaMallocHost (n * sz % 2 ^ 64))]) ∧
      run (host_allocator.allocate_2D sz x y) rt =
        (.returned rt.hostPtr, [.native (.cudaMallocHost (x * y % 2 ^ 64 * sz % 2 ^ 64))]) ∧
      run (host_allocator.allocate_3D sz x y z) rt =
        (.returned rt.hostPtr,
          [.native (.cudaMallocHost (x * y % 2 ^ 64 * z % 2 ^ 64 * sz % 2 ^ 64))]) := by
  simp [run, host_allocator.allocate_1D, host_allocator.allocate_2D, host_allocator.allocate_3D,
    bind, Native.bind, runtime, native, pure, size_t_mul, h]

/-- Witness of C11 (as amended): allocations of `2 ^ 62 + 1`, of `2 ^ 32` by `2 ^ 32` and of
`2 ^ 32` by `2 ^ 32` by `0` elements of 4 bytes, in an environment where the native allocation
succeeds, request 4, 0 and 0 bytes and return the native pointer. -/
theorem allocate_requests_wrapped_byte_count_witness :
    run (host_allocator.allocate_1D 4 (2 ^ 62 + 1)) runtime_ok =
        (.returned 4096, [.native (.cudaMallocHost 4)]) ∧
      run (host_allocator.allocate_2D 4 (2 ^ 32) (2 ^ 32)) runtime_ok =
        (.returned 4096, [.native (.cudaMallocHost 0)]) ∧
      run (host_allocator.allocate_3D 4 (2 ^ 32) (2 ^ 32) 0) runtime_ok =
        (.returned 4096, [.native (.cudaMallocHost 0)]) :=
  allocate_requests_wrapped_byte_count 4 (2 ^ 62 + 1) (2 ^ 32) (2 ^ 32) 0 runtime_ok rfl

/-- Counterexample to C11 as stated: with 4-byte elements, the allocation of `2 ^ 62 + 1`
elements, whose byte count `2 ^ 64 + 4` overflows, asks the native allocator for 4 bytes and
returns its pointer, and the allocation of `0` by `5` elements asks for 0 bytes and returns the
pointer; neither fails. -/
theorem allocate_overflow_counterexample :
    2 ^ 64 ≤ (2 ^ 62 + 1) * 4 ∧
      run (host_allocator.allocate_1D 4 (2 ^ 62 + 1)) runtime_ok =
        (.returned 4096, [.native (.cudaMallocHost 4)]) ∧
      run (host_allocator.allocate_2D 4 0 5) runtime_ok =
        (.returned 4096, [.native (.cudaMallocHost 0)]) ∧
      ¬ ∃ e, (run (host_allocator.allocate_1D 4 (2 ^ 62 + 1)) runtime_ok).1 = .thrown e := by
  refine ⟨by decide, by decide, by decide, ?_⟩
  rintro ⟨e, h⟩
  have h1 : (run (host_allocator.allocate_1D 4 (2 ^ 62 + 1)) runtime_ok).1 = .returned 4096 := by
    decide
  rw [h1] at h
  cases h

/-! ## C12 -/

/-- C12: in every layout, for every pointer and extent arguments, `deallocate` issues the native
free and never throws: it returns normally exactly when the native free succeeds, and otherwise
the process ends through `std::exit` with the status; the extent arguments have no influence on
the run. -/
theorem deallocate_never_throws (p : Nat) (extents other_extents : List Nat) (rt : Runtime) :
    ((run (host_allocator.deallocate p extents) rt).1 = .returned () ↔
      rt.status 0 = cudaSuccess) ∧
    (rt.status 0 ≠ cudaSuccess →
      (run (host_allocator.deallocate p extents) rt).1 = .exited (rt.status 0) ∧
      ends_process (run (host_allocator.deallocate p extents) rt).1) ∧
    (∀ e, (run (host_allocator.deallocate p extents) rt).1 ≠ .thrown e) ∧
    (run (host_allocator.deallocate p extents) rt).2 = [.native (.cudaFreeHost p)] ∧
    run (host_allocator.deallocate p extents) rt =
      run (host_allocator.deallocate p other_extents) rt := by
  by_cases h : rt.status 0 = cudaSuccess <;>
    simp [run, host_allocator.deallocate, bind, Native.bind, native, pure, ddrf.cuda.exit,
      ends_process, h]

/-- Witness of C12: a deallocation whose native free fails with status 4 ends the process with
exit code 4, whatever extents are passed. -/
theorem deallocate_never_throws_witness :
    (run (host_allocator.deallocate 4096 [2, 3]) (runtime_failing_at 0 4)).1 = .exited 4 ∧
      ends_process (run (host_allocator.deallocate 4096 [2, 3]) (runtime_failing_at 0 4)).1 :=
  (deallocate_never_throws 4096 [2, 3] [] (runtime_failing_at 0 4)).2.1 (by decide)

/-! ## C13 -/

/-- C13 (as amended): for every two host allocators `a` and `b`, of any element types and
layouts, `a == b` is true and `a != b` is false, so `a != b` is the negation of `a == b`, and
allocators of different specializations compare equal as well. What is restricted to equal
specializations is the converting constructor: its static assertion holds if and only if the
element types and the layouts agree. -/
theorem host_allocators_always_compare_equal (a b : host_allocator) :
    host_allocator.operator_eq a b = true ∧
    host_allocator.operator_ne a b = false ∧
    host_allocator.operator_ne a b = !host_allocator.operator_eq a b ∧
    (diagnostics (host_allocator.converting_constructor a b) = [] ↔
      a.value_type = b.value_type ∧ a.mem_layout = b.mem_layout) := by
  refine ⟨rfl, rfl, rfl, ?_⟩
  by_cases h1 : a.value_type = b.value_type <;> by_cases h2 : a.mem_layout = b.mem_layout <;>
    simp [diagnostics, host_allocator.converting_constructor, h1, h2]

/-- Counterexample to C13 as stated: `host_allocator<float, pointer_1D>` and
`host_allocator<double, pointer_2D>` differ in element type and in layout and compare equal. -/
theorem host_allocators_compare_equal_counterexample :
    allocator_float_1D.value_type ≠ allocator_double_2D.value_type ∧
      allocator_float_1D.mem_layout ≠ allocator_double_2D.mem_layout ∧
      host_allocator.operator_eq allocator_float_1D allocator_double_2D = true ∧
      ¬ (host_allocator.operator_eq allocator_float_1D allocator_double_2D = true ↔
        allocator_float_1D.value_type = allocator_double_2D.value_type ∧
          allocator_float_1D.mem_layout = allocator_double_2D.mem_layout) := by
  decide

/-! ## C14 -/

/-- A status code without a `case` label is translated by the `default` label. -/
theorem getCufftErrorString_of_unknown (result : cufftResult)
    (h : result ∉ cufft_known_codes) : detail.getCufftErrorString result = "Unknown error" := by
  simp only [cufft_known_codes, List.mem_cons, List.mem_singleton, List.not_mem_nil, or_false,
    not_or] at h
  obtain ⟨h0, h1, h2, h3, h4, h5, h6, h7, h8, h9, h10, h11, h12, h13, h14, h15⟩ := h
  simp [detail.getCufftErrorString, h0, h1, h2, h3, h4, h5, h6, h7, h8, h9, h10, h11, h12, h13,
    h14, h15]

/-- A status code with a `case` label is not translated to the text of the `default` label. -/
theorem getCufftErrorString_of_known (result : cufftResult)
    (h : result ∈ cufft_known_codes) : detail.getCufftErrorString result ≠ "Unknown error" := by
  simp only [cufft_known_codes, List.mem_cons, List.mem_singleton, List.not_mem_nil,
    or_false] at h
  rcases h with h | h | h | h | h | h | h | h | h | h | h | h | h | h | h | h <;>
    subst h <;> decide

/-- C14: `getCufftErrorString` is total; every status code outside the codes enumerated in its
`switch` is translated to `Unknown error`, no enumerated code is translated to that text, and
`checkCufft` on such an unknown code issues nothing and throws the ordinary error, whose
message ends in `Unknown error`. -/
theorem getCufftErrorString_unknown_fallback (result : cufftResult) (file : String)
    (line : Int) (rt : Runtime) :
    (result ∉ cufft_known_codes → detail.getCufftErrorString result = "Unknown error") ∧
    (result ∈ cufft_known_codes → detail.getCufftErrorString result ≠ "Unknown error") ∧
    (result ∉ cufft_known_codes →
      run (checkCufft result file line) rt =
        (.thrown (.runtime_error
          ("cuFFT assertion failed at " ++ file ++ ":" ++ toString line ++ ": " ++
            "Unknown error")), [])) := by
  refine ⟨getCufftErrorString_of_unknown result, getCufftErrorString_of_known result, ?_⟩
  intro h
  have hne : result ≠ CUFFT_SUCCESS := by
    intro h0
    apply h
    simp [cufft_known_codes, h0]
  simp [run, checkCufft, detail.checkCufftError, raise, to_string, hne,
    getCufftErrorString_of_unknown result h]

/-- Witness of C14: the status code 16 has no `case` label; `checkCufft` on it throws the
ordinary error carrying `Unknown error`. -/
theorem getCufftErrorString_unknown_fallback_witness :
    detail.getCufftErrorString 16 = "Unknown error" ∧
      run (checkCufft 16 "fft.cu" 42) runtime_ok =
        (.thrown (.runtime_error "cuFFT assertion failed at fft.cu:42: Unknown error"), []) :=
  ⟨(getCufftErrorString_unknown_fallback 16 "fft.cu" 42 runtime_ok).1 (by decide),
   (getCufftErrorString_unknown_fallback 16 "fft.cu" 42 runtime_ok).2.2 (by decide)⟩

/-! ## Runs of the asynchronous device fills -/

theorem async_fill_1D_run (rt : Runtime) (p : unique_ptr) (value : Int) (x : Nat)
    (hl : p.mem_location = memory_location.device) (hp : p.pitched_memory = false) :
    run (async_policy.fill_1D p value x) rt =
      async_device_summary rt
        (.cudaMemsetAsync p.get value (size_t_mul x p.sizeof_element_type) rt.stream) := by
  by_cases h0 : rt.status 0 = cudaSuccess <;> by_cases h1 : rt.status 1 = cudaSuccess <;>
    by_cases h2 : rt.status 2 = cudaSuccess <;>
    simp [run, async_policy.fill_1D, instantiate, diagnostics, bind, Native.bind, runtime,
      native, pure, throw_invalid_argument, terminate, async_device_summary, hl, hp, h0, h1, h2]

theorem async_fill_2D_run (rt : Runtime) (p : unique_ptr) (value : Int) (x y : Nat)
    (hl : p.mem_location = memory_location.device) (hp : p.pitched_memory = true) :
    run (async_policy.fill_2D p value x y) rt =
      async_device_summary rt
        (.cudaMemset2DAsync p.get p.pitch value (size_t_mul x p.sizeof_element_type) y
          rt.stream) := by
  by_cases h0 : rt.status 0 = cudaSuccess <;> by_cases h1 : rt.status 1 = cudaSuccess <;>
    by_cases h2 : rt.status 2 = cudaSuccess <;>
    simp [run, async_policy.fill_2D, instantiate, diagnostics, bind, Native.bind, runtime,
      native, pure, throw_invalid_argument, terminate, async_device_summary, hl, hp, h0, h1, h2]

theorem async_fill_3D_run (rt : Runtime) (p : unique_ptr) (value : Int) (x y z : Nat)
    (hl : p.mem_location = memory_location.device) (hp : p.pitched_memory = true) :
    run (async_policy.fill_3D p value x y z) rt =
      async_device_summary rt
        (.cudaMemset3DAsync
          { ptr := p.get, pitch := p.pitch, xsize := size_t_mul x p.sizeof_element_type,
            ysize := y }
          value { width := size_t_mul x p.sizeof_element_type, height := y, depth := z }
          rt.stream) := by
  by_cases h0 : rt.status 0 = cudaSuccess <;> by_cases h1 : rt.status 1 = cudaSuccess <;>
    by_cases h2 : rt.status 2 = cudaSuccess <;>
    simp [run, async_policy.fill_3D, instantiate, diagnostics, bind, Native.bind, runtime,
      native, pure, throw_invalid_argument, terminate, async_device_summary, hl, hp, h0, h1, h2]

/-- A well-formed asynchronous device operation runs as the summary says, for some enqueue
call. -/
theorem async_device_op_run (op : AsyncDeviceOp) (rt : Runtime) (hwf : op.well_formed) :
    ∃ e, is_enqueue e = true ∧ run op.call rt = async_device_summary rt e := by
  cases op with
  | copy c => exact async_copy_run c rt hwf
  | fill f =>
    cases f with
    | fill_1D p value x =>
      have h := async_fill_1D_run rt p value x hwf.1 hwf.2
      exact ⟨_, by rfl, h⟩
    | fill_2D p value x y =>
      have h := async_fill_2D_run rt p value x y hwf.1 hwf.2
      exact ⟨_, by rfl, h⟩
    | fill_3D p value x y z =>
      have h := async_fill_3D_run rt p value x y z hwf.1 hwf.2
      exact ⟨_, by rfl, h⟩

/-- Whatever the summary throws is an `invalid_argument` built from a failure status. -/
theorem summary_thrown_is_invalid_argument (rt : Runtime) (enq : NativeCall) (e : exception)
    (h : (async_device_summary rt enq).1 = .thrown e) :
    ∃ k, rt.status k ≠ cudaSuccess ∧
      e = .invalid_argument (rt.cudaGetErrorString (rt.status k)) := by
  by_cases h0 : rt.status 0 = cudaSuccess
  · by_cases h1 : rt.status 1 = cudaSuccess
    · by_cases h2 : rt.status 2 = cudaSuccess
      · simp [async_device_summary, h0, h1, h2] at h
      · simp only [async_device_summary, h0, h1, h2, ne_eq, not_true_eq_false, not_false_eq_true,
          if_true, if_false, Completion.thrown.injEq] at h
        exact ⟨2, h2, h.symm⟩
    · by_cases h2 : rt.status 2 = cudaSuccess
      · simp only [async_device_summary, h0, h1, h2, ne_eq, not_true_eq_false, not_false_eq_true,
          if_true, if_false, Completion.thrown.injEq] at h
        exact ⟨1, h1, h.symm⟩
      · simp [async_device_summary, h0, h1, h2] at h
  · simp only [async_device_summary, h0, ne_eq, not_false_eq_true, if_true,
      Completion.thrown.injEq] at h
    exact ⟨0, h0, h.symm⟩

/-- An enqueue call is neither a stream creation nor a stream destruction. -/
theorem enqueue_not_create_destroy (e : NativeCall) (h : is_enqueue e = true) :
    is_create e = false ∧ is_destroy e = false := by
  cases e <;> simp_all [is_enqueue, is_create, is_destroy]

/-! ## C15 -/

/-- C15 (as amended): when the native primitive behind a copy or a device fill returns a
failure status, whether a bad-parameter status or not, the error reported is always an
`invalid_argument` carrying the description of that status: a synchronous copy or fill throws
it for every failure status of its native call, and whatever an asynchronous copy or fill
throws is an `invalid_argument` built from a failure status of one of its native calls. No
other kind of error is reported. -/
theorem transfer_failure_is_invalid_argument (c : SyncCall) (op : AsyncDeviceOp)
    (rt : Runtime) :
    (c.is_transfer = true → c.well_formed → rt.status 0 ≠ cudaSuccess →
      (run c.call rt).1 = .thrown (.invalid_argument (rt.cudaGetErrorString (rt.status 0)))) ∧
    (op.well_formed → ∀ e, (run op.call rt).1 = .thrown e →
      ∃ k, rt.status k ≠ cudaSuccess ∧
        e = .invalid_argument (rt.cudaGetErrorString (rt.status k))) := by
  constructor
  · intro ht hwf h
    cases c with
    | copy_1D d s x =>
      simp_all [SyncCall.well_formed, SyncCall.call, run, sync_policy.copy_1D, instantiate, bind,
        Native.bind, runtime, native, pure, throw_invalid_argument]
    | copy_2D d s x y =>
      simp_all [SyncCall.well_formed, SyncCall.call, run, sync_policy.copy_2D, instantiate, bind,
        Native.bind, runtime, native, pure, throw_invalid_argument]
    | copy_3D d s x y z dx dy dz sx sy sz =>
      simp_all [SyncCall.well_formed, SyncCall.call, run, sync_policy.copy_3D, instantiate, bind,
        Native.bind, runtime, native, pure, throw_invalid_argument]
    | fill_1D p value x =>
      obtain ⟨hl, hp⟩ := hwf
      simp [SyncCall.call, run, sync_policy.fill_1D, instantiate, diagnostics, bind,
        Native.bind, runtime, native, pure, throw_invalid_argument, hl, hp, h]
    | fill_2D p value x y =>
      obtain ⟨hl, hp⟩ := hwf
      simp [SyncCall.call, run, sync_policy.fill_2D, instantiate, diagnostics, bind,
        Native.bind, runtime, native, pure, throw_invalid_argument, hl, hp, h]
    | fill_3D p value x y z =>
      obtain ⟨hl, hp⟩ := hwf
      simp [SyncCall.call, run, sync_policy.fill_3D, instantiate, diagnostics, bind,
        Native.bind, runtime, native, pure, throw_invalid_argument, hl, hp, h]
    | allocate_1D sz n => simp [SyncCall.is_transfer] at ht
    | allocate_2D sz x y => simp [SyncCall.is_transfer] at ht
    | allocate_3D sz x y z => simp [SyncCall.is_transfer] at ht
  · intro hwf e he
    obtain ⟨enq, -, hrun⟩ := async_device_op_run op rt hwf
    rw [hrun] at he
    exact summary_thrown_is_invalid_argument rt enq e he

/-- Witness of C15 (as amended): a synchronous 1D copy whose native copy fails with the status
4, which is not the bad-parameter status 11 of the environment, throws `invalid_argument`. -/
theorem transfer_failure_is_invalid_argument_witness :
    (run (sync_policy.copy_1D device_linear host_pageable 4) (runtime_failing_at 0 4)).1 =
      .thrown (.invalid_argument "unspecified launch failure") :=
  (transfer_failure_is_invalid_argument (.copy_1D device_linear host_pageable 4)
    (.fill (.fill_1D device_linear 0 4)) (runtime_failing_at 0 4)).1 rfl
    (by decide : diagnostics (sync_policy.copy_1D_layout device_linear host_pageable) = [])
    (by decide)

/-- Counterexample to C15 as stated: the native copy behind a synchronous 1D copy and the
enqueue behind an asynchronous device fill fail with the status 4 (unspecified launch failure),
which is not the bad-parameter status 11 of the environment; the errors reported are
`invalid_argument`, not errors of another kind. -/
theorem execution_failure_kind_counterexample :
    (4 : cudaError_t) ≠ cudaSuccess ∧
      (4 : cudaError_t) ≠ (runtime_failing_at 0 4).cudaErrorInvalidValue ∧
      (runtime_failing_at 0 4).status 0 = 4 ∧
      run (sync_policy.copy_1D device_linear host_pageable 4) (runtime_failing_at 0 4) =
        (.thrown (.invalid_argument "unspecified launch failure"),
          [.native (.cudaMemcpy 256 2048 16 .cudaMemcpyHostToDevice)]) ∧
      (runtime_failing_at 1 4).status 1 = 4 ∧
      (run (async_policy.fill_1D device_linear 0 4) (runtime_failing_at 1 4)).1 =
        .thrown (.invalid_argument "unspecified launch failure") := by
  decide

/-! ## C16 -/

/-- C16: `check` and `checkCufft` issue nothing and return normally if and only if the status
is the success code of their domain; otherwise they throw an error whose message is the prefix
of the domain (`CUDA assertion failed at `, `cuFFT assertion failed at `), the file, a colon,
the decimal line number, a colon and a blank, and the description of the status. -/
theorem check_message_shape (err : cudaError_t) (res : cufftResult) (file : String)
    (line : Int) (rt : Runtime) :
    (run (check err file line) rt = (.returned (), []) ↔ err = cudaSuccess) ∧
    (err ≠ cudaSuccess →
      run (check err file line) rt =
        (.thrown (.runtime_error
          ("CUDA assertion failed at " ++ file ++ ":" ++ toString line ++ ": " ++
            rt.cudaGetErrorString err)), [])) ∧
    (run (checkCufft res file line) rt = (.returned (), []) ↔ res = CUFFT_SUCCESS) ∧
    (res ≠ CUFFT_SUCCESS →
      run (checkCufft res file line) rt =
        (.thrown (.runtime_error
          ("cuFFT assertion failed at " ++ file ++ ":" ++ toString line ++ ": " ++
            detail.getCufftErrorString res)), [])) := by
  refine ⟨?_, ?_, ?_, ?_⟩
  · by_cases h : err = cudaSuccess <;>
      simp [run, check, detail.checkCudaError, bind, Native.bind, runtime, pure, raise, h]
  · intro h
    simp [run, check, detail.checkCudaError, bind, Native.bind, runtime, pure, raise, to_string,
      h]
  · by_cases h : res = CUFFT_SUCCESS <;>
      simp [run, checkCufft, detail.checkCufftError, pure, raise, h]
  · intro h
    simp [run, checkCufft, detail.checkCufftError, raise, to_string, h]

/-- Witness of C16: a failing CUDA status at line 17 of `copy.cu` and the cuFFT status
`CUFFT_EXEC_FAILED` at line 42 of `fft.cu`. -/
theorem check_message_shape_witness :
    run (check 11 "copy.cu" 17) runtime_ok =
        (.thrown (.runtime_error "CUDA assertion failed at copy.cu:17: invalid argument"), []) ∧
      run (checkCufft CUFFT_EXEC_FAILED "fft.cu" 42) runtime_ok =
        (.thrown (.runtime_error
          "cuFFT assertion failed at fft.cu:42: Failed to execute an FFT on the GPU"), []) :=
  ⟨(check_message_shape 11 CUFFT_EXEC_FAILED "copy.cu" 17 runtime_ok).2.1 (by decide),
   (check_message_shape 11 CUFFT_EXEC_FAILED "fft.cu" 42 runtime_ok).2.2.2 (by decide)⟩

/-! ## C17 -/

/-- C17: in every run of an asynchronous device operation (the three asynchronous copies and
the three asynchronous device fills), for every combination of native return statuses, at most
one stream is created. If the creation fails, nothing else is issued (no enqueue, no destroy)
and the error built from its status is thrown. If it succeeds, the native calls are exactly the
creation, one enqueue and one destroy of the created stream, in this order, whatever the
enqueue and the destroy return. -/
theorem async_stream_lifecycle (op : AsyncDeviceOp) (rt : Runtime) (hwf : op.well_formed) :
    count_native is_create (run op.call rt).2 ≤ 1 ∧
    (rt.status 0 ≠ cudaSuccess →
      run op.call rt =
        (.thrown (.invalid_argument (rt.cudaGetErrorString (rt.status 0))),
          [.native .cudaStreamCreate]) ∧
      count_native is_enqueue (run op.call rt).2 = 0 ∧
      count_native is_destroy (run op.call rt).2 = 0) ∧
    (rt.status 0 = cudaSuccess →
      (∃ e, is_enqueue e = true ∧
        (run op.call rt).2 =
          [.native .cudaStreamCreate, .native e, .native (.cudaStreamDestroy rt.stream)]) ∧
      count_native is_create (run op.call rt).2 = 1 ∧
      count_native is_enqueue (run op.call rt).2 = 1 ∧
      count_native is_destroy (run op.call rt).2 = 1) := by
  obtain ⟨e, he, hrun⟩ := async_device_op_run op rt hwf
  obtain ⟨hc, hd⟩ := enqueue_not_create_destroy e he
  have hcc : is_create .cudaStreamCreate = true := rfl
  have hcd : is_create (.cudaStreamDestroy rt.stream) = false := rfl
  have hec : is_enqueue .cudaStreamCreate = false := rfl
  have hed : is_enqueue (.cudaStreamDestroy rt.stream) = false := rfl
  have hdc : is_destroy .cudaStreamCreate = false := rfl
  have hdd : is_destroy (.cudaStreamDestroy rt.stream) = true := rfl
  rw [hrun]
  by_cases h0 : rt.status 0 = cudaSuccess
  · have htr : (async_device_summary rt e).2 =
        [.native .cudaStreamCreate, .native e, .native (.cudaStreamDestroy rt.stream)] := by
      by_cases h1 : rt.status 1 = cudaSuccess <;> by_cases h2 : rt.status 2 = cudaSuccess <;>
        simp [async_device_summary, h0, h1, h2]
    rw [htr]
    refine ⟨?_, fun h => absurd h0 h, fun _ => ⟨⟨e, he, rfl⟩, ?_, ?_, ?_⟩⟩ <;>
      simp [count_native, native_calls, List.countP_cons, he, hc, hd, hcc, hcd, hec, hed, hdc,
        hdd]
  · have hres : async_device_summary rt e =
        (.thrown (.invalid_argument (rt.cudaGetErrorString (rt.status 0))),
          [.native .cudaStreamCreate]) := by
      simp [async_device_summary, h0]
    rw [hres]
    refine ⟨?_, fun _ => ⟨rfl, ?_, ?_⟩, fun h => absurd h h0⟩ <;>
      simp [count_native, native_calls, List.countP_cons, hcc, hec, hdc]

/-- Witness of C17: an asynchronous 3D fill of a pitched device buffer whose enqueue and
destroy both fail still issues exactly the creation, the enqueue and the destroy; when the
creation fails it issues the creation only. -/
theorem async_stream_lifecycle_witness :
    (∃ e, is_enqueue e = true ∧
        (run (async_policy.fill_3D device_pitched 0 2 2 2) (runtime_failing_from 1 4)).2 =
          [.native .cudaStreamCreate, .native e, .native (.cudaStreamDestroy 7)]) ∧
      run (async_policy.copy_2D device_pitched host_pinned 2 2) (runtime_failing_at 0 2) =
        (.thrown (.invalid_argument "out of memory"), [.native .cudaStreamCreate]) :=
  ⟨((async_stream_lifecycle (.fill (.fill_3D device_pitched 0 2 2 2)) (runtime_failing_from 1 4)
      ⟨rfl, rfl⟩).2.2 (by decide)).1,
   ((async_stream_lifecycle (.copy (.copy_2D device_pitched host_pinned 2 2))
      (runtime_failing_at 0 2)
      (by decide : diagnostics (async_policy.copy_2D_layout device_pitched host_pinned ++
        async_policy.copy_2D_pinned device_pitched host_pinned) = [])).2.1 (by decide)).1⟩

end GLADOS
